import Mathlib

/-!
Verification of the md2pdf document-assembly pipeline (`src/md2pdf.mjs`).

Text is modelled as `List Char` (JS strings are sequences of code units; none of
the properties below depend on surrogate-pair details).  Bytes are modelled as
`Nat` with an explicit `< 256` bound where it matters.  The filesystem, the
external YAML parser (`js-yaml`), the external `pdftocairo` conversion and the
syntax highlighter are external collaborators and are taken as explicit
function parameters; everything else is translated from the source.
-/

set_option maxHeartbeats 1000000
set_option maxRecDepth 100000

/-- Shorthand: the character list of a string literal. -/
def cs (s : String) : List Char := s.data

/-- JS `\s` for the character classes used by the source's regexes
(ASCII whitespace; the unicode space classes play no role in the claims). -/
def isJsSpace (c : Char) : Bool :=
  c = ' ' || c = '\t' || c = '\n' || c = '\r' || c = Char.ofNat 11 || c = Char.ofNat 12

/-- Length of the maximal whitespace prefix (used to model greedy `\s*`). -/
def wsPrefixLen (s : List Char) : Nat := (s.takeWhile isJsSpace).length

/-- JS `String.prototype.trim`. -/
def jsTrim (s : List Char) : List Char :=
  ((s.dropWhile isJsSpace).reverse.dropWhile isJsSpace).reverse

/-- JS `String.prototype.toLowerCase` (ASCII range, as used on extensions and tags). -/
def lowerStr (s : List Char) : List Char := s.map Char.toLower

/-- Does `p` occur as a contiguous substring of `s`? -/
def occursIn (p : List Char) : List Char → Bool
  | [] => p.isEmpty
  | c :: t => p.isPrefixOf (c :: t) || occursIn p t

/-- First-occurrence split: `some (pre, post)` with the subject `= pre ++ p ++ post`. -/
def findSub (p : List Char) : List Char → Option (List Char × List Char)
  | [] => if p.isEmpty then some ([], []) else none
  | c :: t =>
    if p.isPrefixOf (c :: t) then some ([], (c :: t).drop p.length)
    else match findSub p t with
      | some (pre, post) => some (c :: pre, post)
      | none => none

/-- JS `String.prototype.replace` with a plain string pattern: first occurrence only
(the `$`-expansion of the replacement is modelled separately where the source
relies on it). -/
def replaceFirst (s pat r : List Char) : List Char :=
  match findSub pat s with
  | none => s
  | some (pre, post) => pre ++ r ++ post

/-- JS `String.prototype.replace` with a `/global/` literal-text regex:
every (non-overlapping, left-to-right) occurrence is replaced. -/
def replaceAll (pat r : List Char) : List Char → List Char
  | [] => []
  | c :: t =>
    if pat ≠ [] ∧ pat.isPrefixOf (c :: t) then
      r ++ replaceAll pat r (t.drop (pat.length - 1))
    else c :: replaceAll pat r t
termination_by s => s.length
decreasing_by
  · simp only [List.length_cons]
    have := List.length_drop (pat.length - 1) t
    omega
  · simp [List.length_cons]

/-- Adjacent repeated character detector (used to reason about `\x7b\x7b`
placeholder patterns). -/
def hasAdj (c : Char) : List Char → Bool
  | a :: b :: t => (a = c && b = c) || hasAdj c (b :: t)
  | _ => false

-- ======================================================================
-- Base64 (Node `Buffer.prototype.toString("base64")`, RFC 4648 with padding)
-- ======================================================================

/-- The base64 alphabet, index to character. -/
def b64chr (n : Nat) : Char :=
  if n < 26 then Char.ofNat (65 + n)
  else if n < 52 then Char.ofNat (71 + n)
  else if n < 62 then Char.ofNat (n - 4)
  else if n = 62 then '+' else '/'

/-- The base64 alphabet, character to index. -/
def b64val (c : Char) : Nat :=
  if c = '+' then 62
  else if c = '/' then 63
  else if 97 ≤ c.toNat then c.toNat - 71
  else if 65 ≤ c.toNat then c.toNat - 65
  else c.toNat + 4

/-- Base64-encode a byte sequence, 3 bytes to 4 characters, `=`-padded. -/
def b64encode : List Nat → List Char
  | [] => []
  | [b1] => [b64chr (b1 / 4), b64chr (b1 % 4 * 16), '=', '=']
  | [b1, b2] => [b64chr (b1 / 4), b64chr (b1 % 4 * 16 + b2 / 16), b64chr (b2 % 16 * 4), '=']
  | b1 :: b2 :: b3 :: rest =>
    b64chr (b1 / 4) :: b64chr (b1 % 4 * 16 + b2 / 16) ::
    b64chr (b2 % 16 * 4 + b3 / 64) :: b64chr (b3 % 64) :: b64encode rest

/-- Base64-decode a padded character stream back to bytes. -/
def b64decode : List Char → List Nat
  | c1 :: c2 :: c3 :: c4 :: rest =>
    if c3 = '=' then [b64val c1 * 4 + b64val c2 / 16]
    else if c4 = '=' then
      [b64val c1 * 4 + b64val c2 / 16, b64val c2 % 16 * 16 + b64val c3 / 4]
    else
      (b64val c1 * 4 + b64val c2 / 16) ::
      (b64val c2 % 16 * 16 + b64val c3 / 4) ::
      ((b64val c3 % 4 * 64 + b64val c4) :: b64decode rest)
  | _ => []

theorem b64val_b64chr : ∀ n, n < 64 → b64val (b64chr n) = n := by decide

theorem b64chr_ne_pad : ∀ n, n < 64 → b64chr n ≠ '=' := by decide

/-- Decoding inverts encoding on genuine byte sequences. -/
theorem b64_roundtrip : ∀ bs : List Nat, (∀ b ∈ bs, b < 256) →
    b64decode (b64encode bs) = bs := by
  intro bs
  induction bs using b64encode.induct with
  | case1 =>
    intro _; simp [b64encode, b64decode]
  | case2 b1 =>
    intro h
    have hb1 : b1 < 256 := h b1 (by simp)
    simp only [b64encode, b64decode, if_pos rfl]
    rw [b64val_b64chr _ (by omega), b64val_b64chr _ (by omega)]
    simp; omega
  | case3 b1 b2 =>
    intro h
    have hb1 : b1 < 256 := h b1 (by simp)
    have hb2 : b2 < 256 := h b2 (by simp)
    simp only [b64encode, b64decode]
    rw [if_neg (b64chr_ne_pad _ (by omega))]
    rw [b64val_b64chr _ (by omega), b64val_b64chr _ (by omega),
        b64val_b64chr _ (by omega)]
    simp; constructor <;> omega
  | case4 b1 b2 b3 rest ih =>
    intro h
    have hb1 : b1 < 256 := h b1 (by simp)
    have hb2 : b2 < 256 := h b2 (by simp)
    have hb3 : b3 < 256 := h b3 (by simp)
    simp only [b64encode, b64decode]
    rw [if_neg (b64chr_ne_pad _ (by omega)), if_neg (b64chr_ne_pad _ (by omega))]
    rw [b64val_b64chr _ (by omega), b64val_b64chr _ (by omega),
        b64val_b64chr _ (by omega), b64val_b64chr _ (by omega)]
    rw [ih (fun b hb => h b (by simp [hb]))]
    simp; refine ⟨by omega, by omega, by omega⟩

-- ======================================================================
-- Asset resolution (`processImages`, src/md2pdf.mjs lines 294-530)
-- ======================================================================

/-- Node `path.isAbsolute`/`path.resolve(baseDir, src)` for already-normalized
POSIX paths ( `..`/`.` segment normalization plays no role in the claims). -/
def resolvedPath (baseDir src : List Char) : List Char :=
  if src.head? = some '/' then src else baseDir ++ '/' :: src

/-- The basename component (after the last `/`). -/
def basenameOf (p : List Char) : List Char := (p.reverse.takeWhile (· ≠ '/')).reverse

/-- Node `path.extname(p).slice(1).toLowerCase()`: text after the last dot of
the basename, empty for dotfiles and dotless names. -/
def extOf (p : List Char) : List Char :=
  let b := basenameOf p
  if '.' ∈ b then
    let afterDot := (b.reverse.takeWhile (· ≠ '.')).reverse
    if b.length = afterDot.length + 1 then [] else lowerStr afterDot
  else []

/-- The remote-URL test `/^https?:\/\//i`. -/
def isHttpUrl (s : List Char) : Bool :=
  (cs "http://").isPrefixOf (lowerStr s) || (cs "https://").isPrefixOf (lowerStr s)

/-- What the model needs of one file: `fs.stat` data plus both readFile views. -/
structure FileEntry where
  isFile : Bool
  size : Nat
  bytes : List Nat
  text : List Char

/-- The warnings the image pass can log. -/
inductive Warn where
  | missingImage (absPath : List Char)
  | unsupportedExt (ext : List Char)
  | pdfEmbedRecommended (absPath : List Char)
  | yamlParseFailed
deriving DecidableEq

inductive ImgKind where
  | svgInline
  | base64Data
  | fileRef
deriving DecidableEq

structure ImageInfo where
  kind : ImgKind
  content : List Char
deriving DecidableEq

/-- The source tests `stat.size / 1024 / 1024 > 1.0`; both divisions are exact
in IEEE double for any realistic size, so the test is `size > 2^20` bytes. -/
def overSvgLimit (size : Nat) : Bool := 1048576 < size

/-- Media type `image/${ext === "jpg" ? "jpeg" : ext}`. -/
def mimeOfExt (ext : List Char) : List Char := if ext = cs "jpg" then cs "jpeg" else ext

/-- Model of `new URL("file://" + absPath).href` (percent-encoding not modelled). -/
def fileUrlOf (absPath : List Char) : List Char := cs "file://" ++ absPath

def supportedExts : List (List Char) :=
  [cs "png", cs "jpg", cs "jpeg", cs "gif", cs "svg", cs "webp"]

/-- The per-source body of `processImages`' resolution loop (lines 322-425):
classify one image source and produce its `imageMap` entry and warnings.
`fs` abstracts `fsp.stat`/`fsp.readFile`; `convertPdfToSvg` abstracts the
external `pdftocairo` call (returning the produced SVG file, or `none`). -/
def resolveImageSrc (fs : List Char → Option FileEntry)
    (convertPdfToSvg : List Char → Option FileEntry)
    (embedBase64 : Bool) (baseDir src : List Char) : Option ImageInfo × List Warn :=
  if isHttpUrl src then (none, [])
  else
    let absPath := resolvedPath baseDir src
    match fs absPath with
    | none => (none, [.missingImage absPath])
    | some st =>
      if st.isFile = false then (none, [.missingImage absPath])
      else
        let ext := extOf absPath
        if ext = cs "pdf" then
          if embedBase64 then
            match convertPdfToSvg absPath with
            | some svgEntry =>
              if overSvgLimit svgEntry.size then
                (some ⟨.base64Data, cs "data:image/svg+xml;base64," ++ b64encode svgEntry.bytes⟩, [])
              else (some ⟨.svgInline, svgEntry.text⟩, [])
            | none => (none, [])
          else (some ⟨.fileRef, fileUrlOf absPath⟩, [.pdfEmbedRecommended absPath])
        else if ext ∉ supportedExts then (none, [.unsupportedExt ext])
        else if ext = cs "svg" then
          if overSvgLimit st.size then
            if embedBase64 then
              (some ⟨.base64Data, cs "data:image/svg+xml;base64," ++ b64encode st.bytes⟩, [])
            else (some ⟨.fileRef, fileUrlOf absPath⟩, [])
          else (some ⟨.svgInline, st.text⟩, [])
        else if embedBase64 then
          (some ⟨.base64Data,
            cs "data:image/" ++ mimeOfExt ext ++ cs ";base64," ++ b64encode st.bytes⟩, [])
        else (some ⟨.fileRef, fileUrlOf absPath⟩, [])

-- ----------------------------------------------------------------------
-- The image-tag scan `/<img\s+([^>]*?)src=["']([^"']+)["']([^>]*?)>/g`
-- ----------------------------------------------------------------------

structure ImgMatch where
  fullMatch : List Char
  beforeSrc : List Char
  src : List Char
  afterSrc : List Char
deriving DecidableEq

def isQuoteCh (c : Char) : Bool := c = '"' || c = Char.ofNat 39

/-- The `[^>]` character class. -/
def notGtCh (c : Char) : Bool := c ≠ '>'

/-- The `[^"']` character class. -/
def notQuoteCh (c : Char) : Bool := !isQuoteCh c

/-- Anchored attempt at `src=["']([^"']+)["']([^>]*?)>`; the quote classes and
the lazy tail followed by a literal `>` are deterministic. -/
def imgSrcAt (u : List Char) : Option (List Char × List Char) :=
  if (cs "src=").isPrefixOf u then
    match u.drop 4 with
    | q :: u2 =>
      if isQuoteCh q then
        let srcRun := u2.takeWhile notQuoteCh
        if srcRun.isEmpty then none
        else
          match u2.drop srcRun.length with
          | q2 :: u4 =>
            if isQuoteCh q2 then
              let aft := u4.takeWhile notGtCh
              match u4.drop aft.length with
              | gt :: _ => if gt = '>' then some (srcRun, aft) else none
              | [] => none
            else none
          | [] => none
      else none
    | [] => none
  else none

/-- The lazy group `([^>]*?)` before `src=`: grow a `>`-free prefix until the
rest of the pattern matches. -/
def imgG1 (acc : List Char) : List Char → Option (List Char × List Char × List Char)
  | [] => none
  | c :: t =>
    match imgSrcAt (c :: t) with
    | some (src, aft) => some (acc.reverse, src, aft)
    | none => if c = '>' then none else imgG1 (c :: acc) t

/-- The greedy `\s+` after `<img`: try the longest whitespace run first and
backtrack (`w+1` is the number of whitespace characters consumed). -/
def imgWsLoop (rest0 : List Char) : Nat → Option (Nat × List Char × List Char × List Char)
  | 0 => none
  | w + 1 =>
    match imgG1 [] (rest0.drop (w + 1)) with
    | some (bef, src, aft) => some (w + 1, bef, src, aft)
    | none => imgWsLoop rest0 w

/-- Anchored attempt of the whole image-tag regex; returns the match and its
consumed length. -/
def matchImgAt (s : List Char) : Option (ImgMatch × Nat) :=
  if (cs "<img").isPrefixOf s then
    let rest0 := s.drop 4
    match imgWsLoop rest0 (wsPrefixLen rest0) with
    | some (w, bef, src, aft) =>
      let len := 4 + w + bef.length + 4 + 1 + src.length + 1 + aft.length + 1
      some (⟨s.take len, bef, src, aft⟩, len)
    | none => none
  else none

/-- Global scan: leftmost matches, continuing after each match. -/
def scanImgsGo : Nat → List Char → List ImgMatch
  | 0, _ => []
  | fuel + 1, s =>
    match matchImgAt s with
    | some (m, k) => m :: scanImgsGo fuel (s.drop (max k 1))
    | none =>
      match s with
      | [] => []
      | _ :: t => scanImgsGo fuel t

/-- All matches of the image-tag regex over the fragment, in order
(lines 301-310 of the source collect exactly these). -/
def scanImgs (s : List Char) : List ImgMatch := scanImgsGo s.length s

/-- Key order of the `imageMap`: first-occurrence order, duplicates dropped. -/
def dedupFirst : List (List Char) → List (List Char)
  | [] => []
  | x :: xs => x :: dedupFirst (xs.filter (fun y => y ≠ x))
termination_by l => l.length
decreasing_by
  simp only [List.length_cons]
  have := List.length_filter_le (fun y => y ≠ x) xs
  omega

-- ----------------------------------------------------------------------
-- Inline-SVG splicing (the `imageInfo.type === "svg"` branch, lines 438-491)
-- ----------------------------------------------------------------------

/-- JS `\w`. -/
def isWordCh (c : Char) : Bool := c.isAlphanum || c = '_'

/-- Anchored attempt at one attribute `(\w+)=["']([^"']+)["']`; the word run is
maximal, so only the full run can be followed by `=`. -/
def attrScanAt (u : List Char) : Option ((List Char × List Char) × Nat) :=
  let w := u.takeWhile isWordCh
  if w.isEmpty then none
  else
    match u.drop w.length with
    | e :: q :: u2 =>
      if e = '=' ∧ isQuoteCh q then
        let v := u2.takeWhile notQuoteCh
        if v.isEmpty then none
        else
          match u2.drop v.length with
          | q2 :: _ =>
            if isQuoteCh q2 then some ((w, v), w.length + 2 + v.length + 1) else none
          | [] => none
      else none
    | _ => none

/-- Global attribute scan over `beforeSrc + afterSrc`. -/
def attrScanGo : Nat → List Char → List (List Char × List Char)
  | 0, _ => []
  | fuel + 1, u =>
    match attrScanAt u with
    | some (kv, k) => kv :: attrScanGo fuel (u.drop (max k 1))
    | none =>
      match u with
      | [] => []
      | _ :: t => attrScanGo fuel t

/-- JS `Map.prototype.set`: overwrite in place, else append (insertion order). -/
def mapSet (m : List (List Char × List Char)) (k v : List Char) :
    List (List Char × List Char) :=
  match m with
  | [] => [(k, v)]
  | (k0, v0) :: t => if k0 = k then (k0, v) :: t else (k0, v0) :: mapSet t k v

/-- The `attrMap` of the splice branch: keys lowercased, later wins. -/
def attrMapOf (allAttrs : List Char) : List (List Char × List Char) :=
  (attrScanGo allAttrs.length allAttrs).foldl
    (fun m kv => mapSet m (lowerStr kv.1) kv.2) []

def lookupA (m : List (List Char × List Char)) (k : List Char) : Option (List Char) :=
  match m with
  | [] => none
  | (k0, v) :: t => if k0 = k then some v else lookupA t k

/-- Anchored attempt of `/<svg([^>]*?)>/i`; returns the matched tag-name text
in its original case (needed for `$&` expansion), the attribute text, and the
suffix after the closing bracket. -/
def svgTagAt (s : List Char) : Option (List Char × List Char × List Char) :=
  if lowerStr (s.take 4) = cs "<svg" then
    let attrs := (s.drop 4).takeWhile notGtCh
    match (s.drop 4).drop attrs.length with
    | _ :: rest => some (s.take 4, attrs, rest)
    | [] => none
  else none

/-- Leftmost `/<svg([^>]*?)>/i` match: `(prefix, tag head, attribute text,
suffix)`. -/
def findSvgTag : List Char → Option (List Char × List Char × List Char × List Char)
  | [] => none
  | c :: t =>
    match svgTagAt (c :: t) with
    | some (hd, attrs, rest) => some ([], hd, attrs, rest)
    | none =>
      match findSvgTag t with
      | some (pre, hd, attrs, rest) => some (c :: pre, hd, attrs, rest)
      | none => none

/-- Anchored attempt of `/name\s*=/i`. -/
def attrEqTestAt (name u : List Char) : Bool :=
  if lowerStr (u.take name.length) = name then
    match (u.drop name.length).dropWhile isJsSpace with
    | e :: _ => e = '='
    | [] => false
  else false

/-- Test `/name\s*=/i.test(...)` (`name` given lowercase). -/
def testAttrEq (name : List Char) : List Char → Bool
  | [] => false
  | c :: t => attrEqTestAt name (c :: t) || testAttrEq name t

/-- Test `/<title>/i.test(svgContent)`. -/
def testHasTitle (s : List Char) : Bool := occursIn (cs "<title>") (lowerStr s)

/-- Width carry-over (lines 453-459): rewrite the first `<svg ...>` tag unless
its text already matches `/width\s*=/i`. -/
def applyWidth (am : List (List Char × List Char)) (sc : List Char) : List Char :=
  match lookupA am (cs "width") with
  | none => sc
  | some w =>
    match findSvgTag sc with
    | none => sc
    | some (pre, _, attrs, rest) =>
      if testAttrEq (cs "width") attrs then sc
      else pre ++ cs "<svg" ++ attrs ++ cs " width=\"" ++ w ++ cs "\">" ++ rest

/-- Height carry-over (lines 461-467). -/
def applyHeight (am : List (List Char × List Char)) (sc : List Char) : List Char :=
  match lookupA am (cs "height") with
  | none => sc
  | some h =>
    match findSvgTag sc with
    | none => sc
    | some (pre, _, attrs, rest) =>
      if testAttrEq (cs "height") attrs then sc
      else pre ++ cs "<svg" ++ attrs ++ cs " height=\"" ++ h ++ cs "\">" ++ rest

/-- JS `$`-expansion of a `replace` replacement string for a regex with one
capture group: `$&` is the matched text, `$1` the group, backtick the
before-match context, `$'` the after-match context, `$$` a literal dollar;
anything else (including `$2`..`$9`, beyond the group count) stays literal. -/
def expandRepl (matched cap1 before after : List Char) : List Char → List Char
  | [] => []
  | c :: t =>
    if c = '$' then
      match t with
      | [] => [c]
      | d :: t' =>
        if d = '$' then '$' :: expandRepl matched cap1 before after t'
        else if d = '&' then matched ++ expandRepl matched cap1 before after t'
        else if d = '1' then cap1 ++ expandRepl matched cap1 before after t'
        else if d = Char.ofNat 96 then before ++ expandRepl matched cap1 before after t'
        else if d = Char.ofNat 39 then after ++ expandRepl matched cap1 before after t'
        else '$' :: d :: expandRepl matched cap1 before after t'
    else c :: expandRepl matched cap1 before after t

/-- Alt-as-title (lines 471-476): insert `<title>` after the root tag unless a
title element already occurs anywhere in the content. Unlike the width/height
passes this one uses a replacement string, not a callback, so the whole string
`<svg$1><title>altText</title>` - alt text included - undergoes JS
dollar-expansion against the match. -/
def applyAlt (am : List (List Char × List Char)) (sc : List Char) : List Char :=
  match lookupA am (cs "alt") with
  | none => sc
  | some alt =>
    if testHasTitle sc then sc
    else
      match findSvgTag sc with
      | none => sc
      | some (pre, hd, attrs, rest) =>
        pre ++ expandRepl (hd ++ attrs ++ cs ">") attrs pre rest
          (cs "<svg$1><title>" ++ alt ++ cs "</title>") ++ rest

/-- The passthrough attributes (lines 479-484): everything except
width/height/alt/src, serialized `key="value"`. -/
def otherAttrsOf (am : List (List Char × List Char)) : List (List Char) :=
  (am.filter (fun kv => kv.1 ∉ [cs "width", cs "height", cs "alt", cs "src"])).map
    (fun kv => kv.1 ++ cs "=\"" ++ kv.2 ++ cs "\"")

/-- Model of joining with a single space (Array join). -/
def joinSp : List (List Char) → List Char
  | [] => []
  | [x] => x
  | x :: y :: t => x ++ ' ' :: joinSp (y :: t)

/-- Unconditional append of the passthrough attributes (lines 485-489). -/
def applyOthers (am : List (List Char × List Char)) (sc : List Char) : List Char :=
  let os := otherAttrsOf am
  if os.isEmpty then sc
  else
    match findSvgTag sc with
    | none => sc
    | some (pre, _, attrs, rest) =>
      pre ++ cs "<svg" ++ attrs ++ cs " " ++ joinSp os ++ cs ">" ++ rest

/-- The whole inline-splice transformation applied to the SVG file content for
one image match (`allAttrs` is `beforeSrc + afterSrc` of the `<img>` element). -/
def spliceSvg (allAttrs svgContent : List Char) : List Char :=
  let am := attrMapOf (jsTrim allAttrs)
  applyOthers am (applyAlt am (applyHeight am (applyWidth am svgContent)))

/-- Replacement text for the base64/file cases (line 494); note the source drops
the whitespace the regex consumed after `<img`. -/
def imgRewriteOf (m : ImgMatch) (content : List Char) : List Char :=
  cs "<img" ++ m.beforeSrc ++ cs "src=\"" ++ content ++ cs "\"" ++ m.afterSrc ++ cs ">"

/-- The substitution pass (lines 431-496): one `replace` per collected match,
skipping sources without an `imageMap` entry. -/
def substituteImages (html : List Char) (ms : List ImgMatch)
    (lookup : List Char → Option ImageInfo) : List Char :=
  ms.foldl (fun acc m =>
    match lookup m.src with
    | none => acc
    | some inf =>
      match inf.kind with
      | .svgInline =>
        replaceFirst acc m.fullMatch (spliceSvg (m.beforeSrc ++ m.afterSrc) inf.content)
      | _ => replaceFirst acc m.fullMatch (imgRewriteOf m inf.content)) html

/-- Function `processImages` end to end: scan, resolve each distinct source, substitute.
Temporary-directory bookkeeping and the info-level counters are I/O only and
are not part of the returned value. -/
def processImages (fs : List Char → Option FileEntry)
    (convertPdfToSvg : List Char → Option FileEntry)
    (html baseDir : List Char) (embedBase64 : Bool) : List Char × List Warn :=
  let ms := scanImgs html
  let srcs := dedupFirst (ms.map (·.src))
  let warns := srcs.foldr
    (fun s acc => (resolveImageSrc fs convertPdfToSvg embedBase64 baseDir s).2 ++ acc) []
  let lookup := fun s => (resolveImageSrc fs convertPdfToSvg embedBase64 baseDir s).1
  (substituteImages html ms lookup, warns)

-- ======================================================================
-- Front matter (`parseYamlFrontMatter`, lines 125-140)
-- ======================================================================

/-- JS values as they flow out of `yaml.load` and into the front-matter object
(scalars and one level of structure are all the pipeline touches). -/
inductive JsVal where
  | nul
  | b (v : Bool)
  | s (v : List Char)
  | n (v : Int)
  | obj (kvs : List (List Char × JsVal))

/-- JS truthiness of the values above (`NaN` has no model counterpart). -/
def isFalsyJs : JsVal → Bool
  | .nul => true
  | .b v => !v
  | .s v => v.isEmpty
  | .n v => v = 0
  | .obj _ => false

/-- Property read `value.key` (undefined on non-objects). -/
def getField (v : JsVal) (k : List Char) : Option JsVal :=
  match v with
  | .obj kvs => kvs.lookup k
  | _ => none

/-- The closing `\s*\n` of the front-matter regex: greedy, so the largest
newline position within the whitespace prefix wins (`j` counts down). -/
def closeLoop (v : List Char) : Nat → Option (List Char)
  | 0 => if v.get? 0 = some '\n' then some (v.drop 1) else none
  | j + 1 =>
    if v.get? (j + 1) = some '\n' then some (v.drop (j + 2)) else closeLoop v j

def closeSplit (v : List Char) : Option (List Char) := closeLoop v (wsPrefixLen v)

/-- The lazy group `([\s\S]*?)` followed by `\n---\s*\n`: shortest prefix first;
when the closing run fails the group keeps growing (regex backtracking). -/
def bodyLoop (acc : List Char) : List Char → Option (List Char × List Char)
  | [] => none
  | c :: t =>
    if (cs "\n---").isPrefixOf (c :: t) then
      match closeSplit ((c :: t).drop 4) with
      | some b => some (acc.reverse, b)
      | none => bodyLoop (c :: acc) t
    else bodyLoop (c :: acc) t

/-- The opening `^---\s*\n`: greedy whitespace with backtracking into the rest
of the pattern (`j` is the newline position being tried, largest first). -/
def openLoop (t : List Char) : Nat → Option (List Char × List Char)
  | 0 => if t.get? 0 = some '\n' then bodyLoop [] (t.drop 1) else none
  | j + 1 =>
    match (if t.get? (j + 1) = some '\n' then bodyLoop [] (t.drop (j + 2)) else none) with
    | some r => some r
    | none => openLoop t j

/-- Model of `content.match(/^---\s*\n([\s\S]*?)\n---\s*\n([\s\S]*)$/)`, returning the
two capture groups. -/
def fmMatch (content : List Char) : Option (List Char × List Char) :=
  if (cs "---").isPrefixOf content then
    openLoop (content.drop 3) (wsPrefixLen (content.drop 3))
  else none

/-- Function `parseYamlFrontMatter` (lines 125-140): `yamlLoad` abstracts `js-yaml`'s
`load` — `.error` for a thrown parse error, `.ok` for the loaded value
(`JsVal.nul` models `undefined`/`null`).  Returns (front matter, body,
warnings); `yaml.load(...) || {}` maps falsy loads to the empty object. -/
def parseYamlFrontMatter (yamlLoad : List Char → Except Unit JsVal)
    (content : List Char) : JsVal × List Char × List Warn :=
  match fmMatch content with
  | none => (.obj [], content, [])
  | some (m, b) =>
    match yamlLoad m with
    | .ok v => (if isFalsyJs v then .obj [] else v, b, [])
    | .error _ => (.obj [], content, [.yamlParseFailed])

-- ======================================================================
-- Markdown transformer hooks (`buildMarkdownIt`, lines 146-189)
-- ======================================================================

/-- The overridden fence renderer (lines 179-186): `baseFence` abstracts the
captured default renderer (the `options.highlight` path, which HTML-escapes
and syntax-highlights); the diagram branch bypasses it entirely. -/
def fenceRule (baseFence : List Char → List Char → List Char)
    (info content : List Char) : List Char :=
  if lowerStr (jsTrim info) = cs "mermaid" then
    cs "<div class=\"mermaid\">\n" ++ content ++ cs "\n</div>\n"
  else baseFence info content

-- ======================================================================
-- Metadata block (`generateMetaInfo` lines 196-209, `insertAfterFirstH1` 217-223)
-- ======================================================================

/-- JS template-literal stringification of the interpolated field values. -/
def jsToStr : JsVal → List Char
  | .nul => cs "null"
  | .b true => cs "true"
  | .b false => cs "false"
  | .s v => v
  | .n v => cs (toString v)
  | .obj _ => cs "[object Object]"

/-- Truthiness of an optionally-present field. -/
def fieldTruthy (v : Option JsVal) : Bool :=
  match v with
  | none => false
  | some v => !isFalsyJs v

def metaFieldHtml (cls label : List Char) (v : Option JsVal) : List Char :=
  match v with
  | none => []
  | some v =>
    if isFalsyJs v then []
    else cs "<div class=\"" ++ cls ++ cs "\">" ++ label ++ jsToStr v ++ cs "</div>"

/-- Function `generateMetaInfo(frontMatter)`: empty unless one of student_id / author /
affiliation is truthy; the block lists them in that fixed order. -/
def generateMetaInfo (frontMatter : JsVal) : List Char :=
  let author := getField frontMatter (cs "author")
  let affiliation := getField frontMatter (cs "affiliation")
  let student_id := getField frontMatter (cs "student_id")
  if !fieldTruthy author && !fieldTruthy affiliation && !fieldTruthy student_id then []
  else
    cs "\n  <div class=\"document-meta\">\n    " ++
    metaFieldHtml (cs "meta-student-id") (cs "学籍番号: ") student_id ++
    cs "\n    " ++
    metaFieldHtml (cs "meta-author") [] author ++
    cs "\n    " ++
    metaFieldHtml (cs "meta-affiliation") [] affiliation ++
    cs "\n  </div>"

/-- Anchored attempt of `/(<h1[^>]*>.*?<\/h1>)/s`: open tag, then the lazy dotall
body up to the first closing tag. -/
def h1At (s : List Char) : Option (List Char × List Char) :=
  if (cs "<h1").isPrefixOf s then
    let attrs := (s.drop 3).takeWhile notGtCh
    match (s.drop 3).drop attrs.length with
    | _ :: afterOpen =>
      match findSub (cs "</h1>") afterOpen with
      | some (inner, rest) =>
        some (cs "<h1" ++ attrs ++ '>' :: inner ++ cs "</h1>", rest)
      | none => none
    | [] => none
  else none

/-- Leftmost match of the h1 regex: `(prefix, matched tag, suffix)`. -/
def findH1 : List Char → Option (List Char × List Char × List Char)
  | [] => none
  | c :: t =>
    match h1At (c :: t) with
    | some (tag, rest) => some ([], tag, rest)
    | none =>
      match findH1 t with
      | some (pre, tag, rest) => some (c :: pre, tag, rest)
      | none => none

/-- Function `insertAfterFirstH1` (lines 217-223): `html.replace(h1Regex, "$1" + metaHtml)`
on the first match; unchanged when the block is empty or no h1 exists. -/
def insertAfterFirstH1 (html metaHtml : List Char) : List Char :=
  if metaHtml.isEmpty then html
  else
    match findH1 html with
    | none => html
    | some (pre, tag, post) =>
      pre ++ expandRepl tag tag pre post ('$' :: '1' :: metaHtml) ++ post

-- ======================================================================
-- Document assembly (`buildHeadingNumberCSS` 541-558, `buildHtml` 565-597,
-- and `main`'s front-matter numbering override, lines 889-891)
-- ======================================================================

/-- The heading-numbering rule set, exactly as emitted (empty when disabled). -/
def buildHeadingNumberCSS (enabled : Bool) : List Char :=
  if !enabled then []
  else
    cs "\n.markdown-body \x7b counter-reset: h2counter; \x7d\n" ++
    cs ".markdown-body h2 \x7b counter-increment: h2counter; counter-reset: h3counter; \x7d\n" ++
    cs ".markdown-body h2::before \x7b content: counter(h2counter) \". \"; \x7d\n" ++
    cs ".markdown-body h3 \x7b counter-increment: h3counter; counter-reset: h4counter; \x7d\n" ++
    cs ".markdown-body h3::before \x7b content: counter(h2counter) \".\" counter(h3counter) \". \"; \x7d\n" ++
    cs ".markdown-body h4 \x7b counter-increment: h4counter; counter-reset: h5counter; \x7d\n" ++
    cs ".markdown-body h4::before \x7b content: counter(h2counter) \".\" counter(h3counter) \".\" counter(h4counter) \". \"; \x7d\n" ++
    cs ".markdown-body h5 \x7b counter-increment: h5counter; counter-reset: h6counter; \x7d\n" ++
    cs ".markdown-body h5::before \x7b content: counter(h2counter) \".\" counter(h3counter) \".\" counter(h4counter) \".\" counter(h5counter) \". \"; \x7d\n" ++
    cs ".markdown-body h6 \x7b counter-increment: h6counter; \x7d\n" ++
    cs ".markdown-body h6::before \x7b content: counter(h2counter) \".\" counter(h3counter) \".\" counter(h4counter) \".\" counter(h5counter) \".\" counter(h6counter) \". \"; \x7d"

/-- The configuration fields `buildHtml` consumes (built in `buildConfig`). -/
structure RenderConfig where
  FONT_SIZE : List Char
  LINE_HEIGHT : List Char
  PADDING_X : List Char
  PADDING_Y : List Char
  CODE_FONT_SCALE : List Char
  PAGE_BG : List Char
  CODE_BG : List Char
  MAX_WIDTH : List Char
  AUTO_NUMBER : Bool

def headingPlaceholder : List Char := cs "/*\x7b\x7bHEADING_NUMBER_CSS\x7d\x7d*/"

/-- Function `buildHtml` (lines 565-597): the external `template.html` is the `tmpl`
argument (the source aborts when no template file exists; that fatal path is
outside the claims).  The chain of global replaces follows the source order. -/
def buildHtml (tmpl : List Char) (cfg : RenderConfig) (title body : List Char)
    (autoNumber : Option Bool) : List Char :=
  let enableNumbering := match autoNumber with | some b => b | none => cfg.AUTO_NUMBER
  let headingNumberCSS := buildHeadingNumberCSS enableNumbering
  let s1 := replaceAll headingPlaceholder headingNumberCSS tmpl
  let s2 := replaceAll (cs "\x7b\x7bTITLE\x7d\x7d") title s1
  let s3 := replaceAll (cs "\x7b\x7bBODY\x7d\x7d") body s2
  let s4 := replaceAll (cs "\x7b\x7bFONT_SIZE\x7d\x7d") cfg.FONT_SIZE s3
  let s5 := replaceAll (cs "\x7b\x7bLINE_HEIGHT\x7d\x7d") cfg.LINE_HEIGHT s4
  let s6 := replaceAll (cs "\x7b\x7bPADDING_X\x7d\x7d") cfg.PADDING_X s5
  let s7 := replaceAll (cs "\x7b\x7bPADDING_Y\x7d\x7d") cfg.PADDING_Y s6
  let s8 := replaceAll (cs "\x7b\x7bCODE_FONT_SCALE\x7d\x7d") cfg.CODE_FONT_SCALE s7
  let s9 := replaceAll (cs "\x7b\x7bPAGE_BG\x7d\x7d") cfg.PAGE_BG s8
  let s10 := replaceAll (cs "\x7b\x7bCODE_BG\x7d\x7d") cfg.CODE_BG s9
  replaceAll (cs "\x7b\x7bMAX_WIDTH\x7d\x7d") cfg.MAX_WIDTH s10

/-- Function `main` has this per-document numbering override (lines 889-891):
`frontMatter.auto_number !== undefined
   ? frontMatter.auto_number !== false && frontMatter.auto_number !== "false"
   : undefined`. -/
def autoNumberOf (frontMatter : JsVal) : Option Bool :=
  match getField frontMatter (cs "auto_number") with
  | none => none
  | some (.b false) => some false
  | some (.s v) => some (v ≠ cs "false")
  | some _ => some true


-- ======================================================================
-- Modelled template for C8 (the external template.html) and the
-- segment-occurrence machinery used to track the replace chain through it
-- ======================================================================

/-- Modelled from the spec: the external `template.html` that `buildHtml` reads
is repository code not present under `src/` (only its reader is); the spec
describes it as the HTML page shell whose stylesheet is parameterized by the
configuration placeholders and carries the commented heading-numbering
placeholder, with title and body placeholders in the page proper.  `tm0` up to
`tmF10` are that file's text split around its placeholders. -/
def tm0 : List Char :=
  cs "<!doctype html>\n<html lang=\"ja\">\n<head>\n<meta charset=\"utf-8\">\n<title>"

def tmF0 : List Char := cs "</title>\n<style>\n  :root \x7b --font-size: "

def tmF1 : List Char := cs "; --line-height: "

def tmF2 : List Char := cs "; --padding-x: "

def tmF3 : List Char := cs "; --padding-y: "

def tmF4 : List Char := cs "; --code-font-scale: "

def tmF5 : List Char := cs "; --page-bg: "

def tmF6 : List Char := cs "; --code-bg: "

def tmF7 : List Char := cs "; --max-width: "

def tmF8 : List Char :=
  cs ";\n  \x7d\n  body \x7b margin: 0; background: var(--page-bg); \x7d\n  .markdown-body \x7b font-size: var(--font-size); line-height: var(--line-height); max-width: var(--max-width); \x7d\n  "

def tmF9 : List Char := cs "\n</style>\n</head>\n<body>\n<article class=\"markdown-body\">"

def tmF10 : List Char := cs "\n</article>\n</body>\n</html>"

/-- Modelled from the spec: the concrete `template.html`, assembled from the
segments — real CSS braces throughout, every placeholder `buildHtml`
substitutes, and the heading-numbering placeholder inside the style element. -/
def tmplModel : List Char :=
  tm0 ++ cs "\x7b\x7bTITLE\x7d\x7d" ++ tmF0 ++ cs "\x7b\x7bFONT_SIZE\x7d\x7d" ++ tmF1 ++
  cs "\x7b\x7bLINE_HEIGHT\x7d\x7d" ++ tmF2 ++ cs "\x7b\x7bPADDING_X\x7d\x7d" ++ tmF3 ++
  cs "\x7b\x7bPADDING_Y\x7d\x7d" ++ tmF4 ++ cs "\x7b\x7bCODE_FONT_SCALE\x7d\x7d" ++ tmF5 ++
  cs "\x7b\x7bPAGE_BG\x7d\x7d" ++ tmF6 ++ cs "\x7b\x7bCODE_BG\x7d\x7d" ++ tmF7 ++
  cs "\x7b\x7bMAX_WIDTH\x7d\x7d" ++ tmF8 ++ headingPlaceholder ++ tmF9 ++
  cs "\x7b\x7bBODY\x7d\x7d" ++ tmF10

/-- Alternating concatenation of (substituted value, following template
segment) pairs. -/
def altCat : List (List Char × List Char) → List Char
  | [] => []
  | (v, k) :: rest => v ++ (k ++ altCat rest)

/-- Occurrence side conditions for a concrete segment standing left of a
junction: the pattern does not occur inside it, and no nonempty proper tail of
it is a pattern prefix (so no occurrence can start inside it and cross its
right edge). -/
@[reducible] def segOKL (p k : List Char) : Prop :=
  occursIn p k = false ∧
  ∀ j, j < p.length → 0 < j → j ≤ k.length →
    (k.drop (k.length - j)).isPrefixOf p = false

/-- Occurrence side condition for a concrete segment standing right of a
junction: no nonempty proper tail of the pattern matches its start, so no
occurrence can cross into it from the left. -/
@[reducible] def segOKR (p k : List Char) : Prop :=
  ∀ j, j < p.length → 0 < j → ((p.drop j).take k.length).isPrefixOf k = false

/-- The conditions carried by each (value, following segment) pair. -/
@[reducible] def segPairOK (p : List Char) (pr : List Char × List Char) : Prop :=
  occursIn p pr.1 = false ∧ segOKL p pr.2 ∧ segOKR p pr.2

/-- No occurrence of the pattern starts inside `w` when `z` follows it. -/
@[reducible] def noStartIn (p w z : List Char) : Prop :=
  ∀ i, i < w.length → p.isPrefixOf ((w ++ z).drop i) = false

/-- Linear checker behind `segOKL`: no nonempty tail of the subject that is
shorter than the pattern is a pattern prefix. -/
def suffixesOK (p : List Char) : List Char → Bool
  | [] => true
  | c :: t =>
    (!(decide ((c :: t).length < p.length) && (c :: t).isPrefixOf p)) && suffixesOK p t

/-- Linear checker behind `segOKR`: no tail of the scanned list, truncated to
the segment's length, matches the segment's start. -/
def tailsOK (k : List Char) : List Char → Bool
  | [] => true
  | c :: t => (!((c :: t).take k.length).isPrefixOf k) && tailsOK k t

-- ======================================================================
-- Claims
-- ======================================================================

/-- Helper for C1: the raster branch of the resolution loop. -/
theorem raster_resolve (fs conv : List Char → Option FileEntry)
    (baseDir src : List Char) (entry : FileEntry) (e : List Char)
    (hHttp : isHttpUrl src = false)
    (hStat : fs (resolvedPath baseDir src) = some entry)
    (hFile : entry.isFile = true)
    (hext : extOf (resolvedPath baseDir src) = e)
    (h1 : (e = cs "pdf") = False) (h2 : (e ∈ supportedExts) = True)
    (h3 : (e = cs "svg") = False) :
    resolveImageSrc fs conv true baseDir src =
      (some ⟨.base64Data,
        cs "data:image/" ++ mimeOfExt e ++ cs ";base64," ++ b64encode entry.bytes⟩, []) := by
  simp only [resolveImageSrc, hHttp, hStat, hFile, hext]
  simp [h1, h2, h3]

/-- C1: with embed mode on, a local raster asset (png/jpg/jpeg/gif/webp) is
read, base64-encoded and rewritten as a `data:` reference with the correct
media type, and decoding the payload returns exactly the original bytes. -/
theorem c1_raster_embed_roundtrip (fs conv : List Char → Option FileEntry)
    (baseDir src : List Char) (entry : FileEntry)
    (hHttp : isHttpUrl src = false)
    (hStat : fs (resolvedPath baseDir src) = some entry)
    (hFile : entry.isFile = true)
    (hExt : extOf (resolvedPath baseDir src) ∈
      [cs "png", cs "jpg", cs "jpeg", cs "gif", cs "webp"])
    (hBytes : ∀ b ∈ entry.bytes, b < 256) :
    resolveImageSrc fs conv true baseDir src =
      (some ⟨.base64Data,
        cs "data:image/" ++ mimeOfExt (extOf (resolvedPath baseDir src)) ++
        cs ";base64," ++ b64encode entry.bytes⟩, []) ∧
    b64decode (b64encode entry.bytes) = entry.bytes := by
  refine ⟨?_, b64_roundtrip _ hBytes⟩
  simp only [List.mem_cons, List.mem_singleton, List.not_mem_nil, or_false] at hExt
  rcases hExt with h | h | h | h | h <;>
    exact (h ▸ raster_resolve fs conv baseDir src entry _ hHttp hStat hFile h
      (by decide) (by decide) (by decide))

/-- Witness for C1: a 4-byte png. -/
theorem c1_raster_embed_roundtrip_witness :
    resolveImageSrc
      (fun p => if p = cs "/base/a.png" then some ⟨true, 4, [137, 80, 78, 71], []⟩ else none)
      (fun _ => none) true (cs "/base") (cs "a.png") =
      (some ⟨.base64Data, cs "data:image/png;base64,iVBORw==" ⟩, []) ∧
    b64decode (b64encode [137, 80, 78, 71]) = [137, 80, 78, 71] := by
  have h := c1_raster_embed_roundtrip
    (fun p => if p = cs "/base/a.png" then some ⟨true, 4, [137, 80, 78, 71], []⟩ else none)
    (fun _ => none) (cs "/base") (cs "a.png") ⟨true, 4, [137, 80, 78, 71], []⟩
    (by decide) rfl rfl (by decide) (by decide)
  exact ⟨by rw [h.1]; decide, h.2⟩

/-- C3 counterexample: an SVG file of exactly 1 MiB (`stat.size = 1048576`,
which is "at the threshold") is spliced inline by the code
(`fileSizeMB > 1.0` is false), not base64-encoded as the claim requires. -/
theorem c3_threshold_counterexample :
    (resolveImageSrc
      (fun p => if p = cs "/d/big.svg" then some ⟨true, 1048576, [], cs "<svg/>"⟩ else none)
      (fun _ => none) true (cs "/d") (cs "big.svg")).1 =
      some ⟨.svgInline, cs "<svg/>"⟩ := by decide

/-- C3 (amended): with embed mode on, a local SVG asset is base64-encoded as a
data reference when its size is STRICTLY above 1 MiB, and spliced inline
(as file text) when its size is at most 1 MiB. -/
theorem c3_svg_size_policy (fs conv : List Char → Option FileEntry)
    (baseDir src : List Char) (entry : FileEntry)
    (hHttp : isHttpUrl src = false)
    (hStat : fs (resolvedPath baseDir src) = some entry)
    (hFile : entry.isFile = true)
    (hExt : extOf (resolvedPath baseDir src) = cs "svg") :
    (1048576 < entry.size →
      resolveImageSrc fs conv true baseDir src =
        (some ⟨.base64Data, cs "data:image/svg+xml;base64," ++ b64encode entry.bytes⟩, [])) ∧
    (entry.size ≤ 1048576 →
      resolveImageSrc fs conv true baseDir src = (some ⟨.svgInline, entry.text⟩, [])) := by
  constructor
  · intro hsize
    simp only [resolveImageSrc, hHttp, hStat, hFile, hExt]
    simp [overSvgLimit, supportedExts, hsize, show cs "svg" ≠ cs "pdf" by decide]
  · intro hsize
    simp only [resolveImageSrc, hHttp, hStat, hFile, hExt]
    simp [overSvgLimit, supportedExts, Nat.not_lt.mpr hsize,
      show cs "svg" ≠ cs "pdf" by decide]

/-- Witness for C3: a 2 MB svg is base64-encoded. -/
theorem c3_svg_size_policy_witness :
    (1048576 < 2000000 →
      resolveImageSrc
        (fun p => if p = cs "/d/big.svg" then some ⟨true, 2000000, [60], cs "x"⟩ else none)
        (fun _ => none) true (cs "/d") (cs "big.svg") =
        (some ⟨.base64Data, cs "data:image/svg+xml;base64," ++ b64encode [60]⟩, [])) ∧
    1048576 < 2000000 :=
  ⟨(c3_svg_size_policy
      (fun p => if p = cs "/d/big.svg" then some ⟨true, 2000000, [60], cs "x"⟩ else none)
      (fun _ => none) (cs "/d") (cs "big.svg") ⟨true, 2000000, [60], cs "x"⟩
      (by decide) rfl rfl rfl).1, by omega⟩

/-- C5: a fenced block whose trimmed, lowercased info string is `mermaid` is
rendered as the marker container with the raw content verbatim; the result
does not depend on the highlighter at all (`baseFence` is arbitrary). -/
theorem c5_mermaid_fence (baseFence : List Char → List Char → List Char)
    (info content : List Char) (h : lowerStr (jsTrim info) = cs "mermaid") :
    fenceRule baseFence info content =
      cs "<div class=\"mermaid\">\n" ++ content ++ cs "\n</div>\n" := by
  simp [fenceRule, h]

/-- Witness for C5: the spec scenario, with a highlighter that would mangle the
content if it were consulted. -/
theorem c5_mermaid_fence_witness :
    lowerStr (jsTrim (cs " Mermaid ")) = cs "mermaid" ∧
    fenceRule (fun _ _ => cs "HIGHLIGHTED") (cs " Mermaid ") (cs "A-->B") =
      cs "<div class=\"mermaid\">\n" ++ cs "A-->B" ++ cs "\n</div>\n" :=
  ⟨by decide, c5_mermaid_fence _ _ _ (by decide)⟩

/-- A substitution pass in which no source has an `imageMap` entry changes nothing. -/
theorem substituteImages_skip (html : List Char) (ms : List ImgMatch)
    (lookup : List Char → Option ImageInfo) (h : ∀ m ∈ ms, lookup m.src = none) :
    substituteImages html ms lookup = html := by
  induction ms generalizing html with
  | nil => rfl
  | cons m ms ih =>
    have hm := h m (by simp)
    simp only [substituteImages, List.foldl_cons, hm]
    exact ih html (fun m' hm' => h m' (by simp [hm']))

/-- Deduplication keeps every element. -/
theorem mem_dedupFirst (x : List Char) : ∀ l, x ∈ l → x ∈ dedupFirst l := by
  intro l
  induction l using dedupFirst.induct with
  | case1 => simp
  | case2 y ys ih =>
    intro hx
    rw [dedupFirst]
    rcases List.mem_cons.mp hx with h | h
    · simp [h]
    · by_cases hxy : x = y
      · simp [hxy]
      · exact List.mem_cons_of_mem _ (ih (List.mem_filter.mpr ⟨h, by simp [hxy]⟩))

/-- Membership in the collected warning list. -/
theorem mem_warns_foldr (f : List Char → List Warn) (w : Warn) :
    ∀ (srcs : List (List Char)) (x : List Char), x ∈ srcs → w ∈ f x →
      w ∈ srcs.foldr (fun s acc => f s ++ acc) [] := by
  intro srcs
  induction srcs with
  | nil => simp
  | cons s ss ih =>
    intro x hx hw
    simp only [List.foldr_cons, List.mem_append]
    rcases List.mem_cons.mp hx with h | h
    · exact Or.inl (h ▸ hw)
    · exact Or.inr (ih x h hw)

/-- Remote URLs are skipped before any filesystem access. -/
theorem resolveImageSrc_http (fs conv : List Char → Option FileEntry) (embed : Bool)
    (baseDir src : List Char) (h : isHttpUrl src = true) :
    resolveImageSrc fs conv embed baseDir src = (none, []) := by
  simp [resolveImageSrc, h]

/-- A source whose resolved path has no regular file yields no entry and the
missing-image warning. -/
theorem resolveImageSrc_missing (fs conv : List Char → Option FileEntry) (embed : Bool)
    (baseDir src : List Char) (hH : isHttpUrl src = false)
    (hMiss : ∀ st, fs (resolvedPath baseDir src) = some st → st.isFile = false) :
    resolveImageSrc fs conv embed baseDir src =
      (none, [.missingImage (resolvedPath baseDir src)]) := by
  simp only [resolveImageSrc, hH]
  cases hfs : fs (resolvedPath baseDir src) with
  | none => simp
  | some st => simp [hMiss st hfs]

/-- C2: when every image reference in the fragment resolves to a path with no
regular file, the whole pass returns the fragment unchanged (each original
reference is left as-is), and each non-remote reference logs a missing-image
warning; the pass returns normally. -/
theorem c2_missing_assets (fs conv : List Char → Option FileEntry)
    (html baseDir : List Char) (embed : Bool)
    (hMiss : ∀ m ∈ scanImgs html, ∀ st, fs (resolvedPath baseDir m.src) = some st →
      st.isFile = false) :
    (processImages fs conv html baseDir embed).1 = html ∧
    (∀ m ∈ scanImgs html, isHttpUrl m.src = false →
      Warn.missingImage (resolvedPath baseDir m.src) ∈
        (processImages fs conv html baseDir embed).2) := by
  constructor
  · simp only [processImages]
    apply substituteImages_skip
    intro m hm
    by_cases hh : isHttpUrl m.src = true
    · rw [resolveImageSrc_http fs conv embed baseDir m.src hh]
    · rw [resolveImageSrc_missing fs conv embed baseDir m.src
        (Bool.eq_false_iff.mpr hh) (hMiss m hm)]
  · intro m hm hh
    simp only [processImages]
    apply mem_warns_foldr _ _ _ m.src
      (mem_dedupFirst _ _ (List.mem_map_of_mem (·.src) hm))
    rw [resolveImageSrc_missing fs conv embed baseDir m.src hh (hMiss m hm)]
    simp

/-- Witness for C2: the spec scenario `# Title` plus `![x](missing.png)` after
Markdown rendering, on an empty filesystem. -/
theorem c2_missing_assets_witness :
    (processImages (fun _ => none) (fun _ => none)
      (cs "<h1>Title</h1>\n<p><img src=\"missing.png\" alt=\"x\"></p>\n")
      (cs "/base") true).1 =
      cs "<h1>Title</h1>\n<p><img src=\"missing.png\" alt=\"x\"></p>\n" ∧
    Warn.missingImage (cs "/base/missing.png") ∈
      (processImages (fun _ => none) (fun _ => none)
        (cs "<h1>Title</h1>\n<p><img src=\"missing.png\" alt=\"x\"></p>\n")
        (cs "/base") true).2 := by
  have h := c2_missing_assets (fun _ => none) (fun _ => none)
    (cs "<h1>Title</h1>\n<p><img src=\"missing.png\" alt=\"x\"></p>\n")
    (cs "/base") true (fun _ _ _ hst => Option.noConfusion hst)
  refine ⟨h.1, ?_⟩
  exact h.2 ⟨cs "<img src=\"missing.png\" alt=\"x\">", [], cs "missing.png", cs " alt=\"x\""⟩
    (by decide) (by decide)


/-- Running `takeWhile` through an append whose head part satisfies the predicate. -/
theorem takeWhile_append_stop (p : Char → Bool) (a r : List Char) (x : Char)
    (ha : ∀ c ∈ a, p c = true) (hx : p x = false) :
    (a ++ x :: r).takeWhile p = a := by
  induction a with
  | nil => simp [List.takeWhile_cons, hx]
  | cons c a' ih =>
    have hc := ha c (by simp)
    simp only [List.cons_append, List.takeWhile_cons, hc, if_true]
    rw [ih (fun c' hc' => ha c' (by simp [hc']))]

theorem notGtCh_of_mem (a : List Char) (ha : '>' ∉ a) : ∀ c ∈ a, notGtCh c = true := by
  intro c hc
  simp only [notGtCh, decide_eq_true_eq]
  exact fun h => ha (h ▸ hc)

/-- Anchored `/<svg([^>]*?)>/i` on a lowercase root tag with `>`-free attributes. -/
theorem svgTagAt_flat (a r : List Char) (ha : '>' ∉ a) :
    svgTagAt ('<' :: 's' :: 'v' :: 'g' :: (a ++ '>' :: r)) = some (cs "<svg", a, r) := by
  simp only [svgTagAt, List.take_succ_cons, List.take_zero, List.drop_succ_cons,
    List.drop_zero]
  rw [if_pos (by decide : lowerStr ['<', 's', 'v', 'g'] = cs "<svg")]
  rw [takeWhile_append_stop notGtCh a r '>' (notGtCh_of_mem a ha) (by decide)]
  rw [List.drop_left]
  rfl

/-- The leftmost `/<svg([^>]*?)>/i` match on a fragment that IS such a root tag. -/
theorem findSvgTag_flat (a r : List Char) (ha : '>' ∉ a) :
    findSvgTag (cs "<svg" ++ a ++ cs ">" ++ r) = some ([], cs "<svg", a, r) := by
  have hshape : cs "<svg" ++ a ++ cs ">" ++ r = '<' :: 's' :: 'v' :: 'g' :: (a ++ '>' :: r) := by
    simp [cs, List.append_assoc]
  rw [hshape, findSvgTag, svgTagAt_flat a r ha]

/-- Width stage on a root tag in normal form. -/
theorem applyWidth_flat (am : List (List Char × List Char)) (a r w : List Char)
    (hw : lookupA am (cs "width") = some w) (ha : '>' ∉ a)
    (hW : testAttrEq (cs "width") a = false) :
    applyWidth am (cs "<svg" ++ a ++ cs ">" ++ r) =
      cs "<svg" ++ (a ++ cs " width=\"" ++ w ++ cs "\"") ++ cs ">" ++ r := by
  simp only [applyWidth, hw, findSvgTag_flat a r ha, hW]
  simp [List.append_assoc, show cs "\">" = cs "\"" ++ cs ">" from rfl]

/-- Height stage on a root tag in normal form. -/
theorem applyHeight_flat (am : List (List Char × List Char)) (a r hgt : List Char)
    (hh : lookupA am (cs "height") = some hgt) (ha : '>' ∉ a)
    (hH : testAttrEq (cs "height") a = false) :
    applyHeight am (cs "<svg" ++ a ++ cs ">" ++ r) =
      cs "<svg" ++ (a ++ cs " height=\"" ++ hgt ++ cs "\"") ++ cs ">" ++ r := by
  simp only [applyHeight, hh, findSvgTag_flat a r ha, hH]
  simp [List.append_assoc, show cs "\">" = cs "\"" ++ cs ">" from rfl]

/-- Dollar-expansion is the identity on dollar-free text. -/
theorem expandRepl_no_dollar (matched cap1 before after : List Char) :
    ∀ r, '$' ∉ r → expandRepl matched cap1 before after r = r := by
  intro r
  induction r with
  | nil => intro _; rfl
  | cons c t ih =>
    intro h
    have hc : ¬(c = '$') := fun hcc => h (by simp [hcc])
    have hstep : expandRepl matched cap1 before after (c :: t) =
        c :: expandRepl matched cap1 before after t := by
      rw [expandRepl.eq_def]
      simp [hc]
    rw [hstep, ih (fun hm => h (by simp [hm]))]

/-- The replacement string `"$1" + metaHtml` expands to the captured group
followed by the block, when the block itself is dollar-free. -/
theorem expandRepl_dollar1 (matched cap1 before after r : List Char) (h : '$' ∉ r) :
    expandRepl matched cap1 before after ('$' :: '1' :: r) = cap1 ++ r := by
  have hstep : expandRepl matched cap1 before after ('$' :: '1' :: r) =
      cap1 ++ expandRepl matched cap1 before after r := rfl
  rw [hstep, expandRepl_no_dollar matched cap1 before after r h]

/-- Dollar-expansion distributes over a dollar-free prefix. -/
theorem expandRepl_append_clean (M C B A u v : List Char) (hu : '$' ∉ u) :
    expandRepl M C B A (u ++ v) = u ++ expandRepl M C B A v := by
  induction u with
  | nil => simp
  | cons c u' ih =>
    have hc : ¬(c = '$') := fun hcc => hu (by simp [hcc])
    have hstep : expandRepl M C B A (c :: (u' ++ v)) = c :: expandRepl M C B A (u' ++ v) := by
      rw [expandRepl.eq_def]
      simp [hc]
    simp only [List.cons_append, hstep, ih (fun hm => hu (by simp [hm]))]

/-- Evaluating the dollar-expansion of the alt replacement string when the alt
text itself is dollar-free: `$1` becomes the captured attribute text and the
rest is literal. -/
theorem expandRepl_svg_template (M a b r alt : List Char) (hda : '$' ∉ alt) :
    expandRepl M a b r (cs "<svg$1><title>" ++ alt ++ cs "</title>") =
      cs "<svg" ++ (a ++ (cs "><title>" ++ (alt ++ cs "</title>"))) := by
  have hshape : cs "<svg$1><title>" ++ alt ++ cs "</title>" =
      cs "<svg" ++ ('$' :: '1' :: (cs "><title>" ++ (alt ++ cs "</title>"))) := by
    simp [cs, List.append_assoc]
  rw [hshape, expandRepl_append_clean M a b r (cs "<svg") _ (by decide)]
  have hd1 : expandRepl M a b r ('$' :: '1' :: (cs "><title>" ++ (alt ++ cs "</title>"))) =
      a ++ expandRepl M a b r (cs "><title>" ++ (alt ++ cs "</title>")) := rfl
  rw [hd1, expandRepl_append_clean M a b r (cs "><title>") _ (by decide),
    expandRepl_no_dollar M a b r (alt ++ cs "</title>") (by
      intro hm
      rcases List.mem_append.mp hm with h | h
      · exact hda h
      · exact absurd h (by decide))]

/-- Alt-as-title stage on a root tag in normal form, for dollar-free alt text. -/
theorem applyAlt_flat (am : List (List Char × List Char)) (a r alt : List Char)
    (halt : lookupA am (cs "alt") = some alt) (ha : '>' ∉ a) (hda : '$' ∉ alt)
    (hT : testHasTitle (cs "<svg" ++ a ++ cs ">" ++ r) = false) :
    applyAlt am (cs "<svg" ++ a ++ cs ">" ++ r) =
      cs "<svg" ++ a ++ cs ">" ++ (cs "<title>" ++ alt ++ cs "</title>" ++ r) := by
  simp only [applyAlt, halt, hT, findSvgTag_flat a r ha]
  rw [expandRepl_svg_template (cs "<svg" ++ a ++ cs ">") a [] r alt hda]
  simp [List.append_assoc, show cs "><title>" = cs ">" ++ cs "<title>" from rfl]

/-- Passthrough stage on a root tag in normal form. -/
theorem applyOthers_flat (am : List (List Char × List Char)) (a r : List Char)
    (ha : '>' ∉ a) :
    applyOthers am (cs "<svg" ++ a ++ cs ">" ++ r) =
      (if (otherAttrsOf am).isEmpty then cs "<svg" ++ a ++ cs ">" ++ r
       else cs "<svg" ++ (a ++ cs " " ++ joinSp (otherAttrsOf am)) ++ cs ">" ++ r) := by
  simp only [applyOthers]
  by_cases hos : (otherAttrsOf am).isEmpty
  · simp [hos]
  · simp only [hos, Bool.false_eq_true, if_false, findSvgTag_flat a r ha]
    simp [List.append_assoc]

/-- C4 counterexample, four concrete runs of the splice refuting each part of
the claim as stated. (1) The `<img>` element carries `class="x"` and the SVG
root element already defines `class="y"` explicitly; the passthrough loop
appends the attribute without any duplication check, so the resulting root tag
carries `class` twice. (2) An explicit `width="100"` on the image element is
dropped, not carried, when the root tag text contains `stroke-width` — the
guard is the substring test `/width\s*=/i`, which fires on it although the
root defines no `width`. (3) An explicit alt is dropped, not carried as a
title element, when a `<title>` occurs anywhere in the file — here inside a
nested `<g>`, not on the root element. (4) An alt text containing `$&` is not
carried verbatim: the replacement string is dollar-expanded, so `a$&b` becomes
`a<svg>b` inside the inserted title. -/
theorem c4_duplicate_attr_counterexample :
    (spliceSvg (cs " class=\"x\"") (cs "<svg class=\"y\"><title>t</title></svg>") =
      cs "<svg class=\"y\" class=\"x\"><title>t</title></svg>" ∧
     occursIn (cs "class=\"y\" class=\"x\"")
      (spliceSvg (cs " class=\"x\"") (cs "<svg class=\"y\"><title>t</title></svg>")) = true) ∧
    spliceSvg (cs " width=\"100\"") (cs "<svg stroke-width=\"2\">d</svg>") =
      cs "<svg stroke-width=\"2\">d</svg>" ∧
    spliceSvg (cs " alt=\"pic\"") (cs "<svg><g><title>inner</title></g></svg>") =
      cs "<svg><g><title>inner</title></g></svg>" ∧
    spliceSvg (cs " alt=\"a$&b\"") (cs "<svg>d</svg>") =
      cs "<svg><title>a<svg>b</title>d</svg>" := by
  exact ⟨⟨by decide, by decide⟩, by decide, by decide, by decide⟩

/-- C4 (amended): for an under-threshold spliced SVG, explicit width and height
attributes of the image element are carried onto the root element provided the
root tag's text does not already match `/width\s*=/` resp. `/height\s*=/`
(a substring test, which also fires on names like `stroke-width`); the alt
attribute is carried as a `<title>` element provided no title element occurs
anywhere in the file and the alt text is dollar-free (the replacement string
is dollar-expanded, so it is inserted verbatim only then); the remaining
passthrough attributes are appended to the root tag unconditionally — without
any duplication check. -/
theorem c4_attr_carryover (allAttrs a r w hgt alt : List Char)
    (hw : lookupA (attrMapOf (jsTrim allAttrs)) (cs "width") = some w)
    (hh : lookupA (attrMapOf (jsTrim allAttrs)) (cs "height") = some hgt)
    (halt : lookupA (attrMapOf (jsTrim allAttrs)) (cs "alt") = some alt)
    (ha : '>' ∉ a) (hwc : '>' ∉ w) (hhc : '>' ∉ hgt) (hda : '$' ∉ alt)
    (hW : testAttrEq (cs "width") a = false)
    (hH : testAttrEq (cs "height") (a ++ cs " width=\"" ++ w ++ cs "\"") = false)
    (hT : testHasTitle (cs "<svg" ++
        (a ++ cs " width=\"" ++ w ++ cs "\"" ++ cs " height=\"" ++ hgt ++ cs "\"") ++
        cs ">" ++ r) = false) :
    spliceSvg allAttrs (cs "<svg" ++ a ++ cs ">" ++ r) =
      (if (otherAttrsOf (attrMapOf (jsTrim allAttrs))).isEmpty then
        cs "<svg" ++ (a ++ cs " width=\"" ++ w ++ cs "\"" ++ cs " height=\"" ++ hgt ++ cs "\"") ++
          cs ">" ++ (cs "<title>" ++ alt ++ cs "</title>" ++ r)
       else
        cs "<svg" ++ ((a ++ cs " width=\"" ++ w ++ cs "\"" ++ cs " height=\"" ++ hgt ++ cs "\"") ++
          cs " " ++ joinSp (otherAttrsOf (attrMapOf (jsTrim allAttrs)))) ++
          cs ">" ++ (cs "<title>" ++ alt ++ cs "</title>" ++ r)) := by
  have ha1 : '>' ∉ (a ++ cs " width=\"" ++ w ++ cs "\"") := by
    intro hmem
    simp only [List.mem_append] at hmem
    rcases hmem with ((hmem | hmem) | hmem) | hmem
    · exact ha hmem
    · exact absurd hmem (by decide)
    · exact hwc hmem
    · exact absurd hmem (by decide)
  have ha2 : '>' ∉ (a ++ cs " width=\"" ++ w ++ cs "\"" ++ cs " height=\"" ++ hgt ++ cs "\"") := by
    intro hmem
    simp only [List.mem_append] at hmem
    rcases hmem with ((hmem | hmem) | hmem) | hmem
    · exact ha1 (by simp only [List.mem_append]; tauto)
    · exact absurd hmem (by decide)
    · exact hhc hmem
    · exact absurd hmem (by decide)
  simp only [spliceSvg]
  rw [applyWidth_flat _ a r w hw ha hW]
  rw [applyHeight_flat _ _ r hgt hh ha1 hH]
  rw [applyAlt_flat _ _ r alt halt ha2 hda hT]
  rw [applyOthers_flat _ _ _ ha2]

/-- Witness for C4 (amended): width, height, alt and a passthrough class all
carried onto the spliced root element. -/
theorem c4_attr_carryover_witness :
    spliceSvg (cs " width=\"10\" height=\"20\" alt=\"pic\" class=\"x\"")
      (cs "<svg" ++ cs " viewBox=\"0 0 1 1\"" ++ cs ">" ++ cs "d</svg>") =
      cs "<svg viewBox=\"0 0 1 1\" width=\"10\" height=\"20\" class=\"x\"><title>pic</title>d</svg>" := by
  rw [c4_attr_carryover (cs " width=\"10\" height=\"20\" alt=\"pic\" class=\"x\"")
    (cs " viewBox=\"0 0 1 1\"") (cs "d</svg>") (cs "10") (cs "20") (cs "pic")
    (by decide) (by decide) (by decide) (by decide) (by decide) (by decide)
    (by decide) (by decide) (by decide) (by decide)]
  decide

/-- The greedy closing run skips candidate positions with no newline. -/
theorem closeLoop_skip (v : List Char) :
    ∀ k, (∀ i, 1 ≤ i → i ≤ k → v.get? i ≠ some '\n') → closeLoop v k = closeLoop v 0 := by
  intro k
  induction k with
  | zero => intro _; rfl
  | succ k ih =>
    intro h
    have hstep : closeLoop v (k + 1) =
        if v.get? (k + 1) = some '\n' then some (v.drop (k + 2)) else closeLoop v k := rfl
    rw [hstep, if_neg (h (k + 1) (by omega) (by omega)),
      ih (fun i h1 h2 => h i h1 (by omega))]

/-- Closing `\s*\n` right after the delimiter: when the body's whitespace
prefix contains no further newline, exactly the delimiter newline is consumed. -/
theorem closeSplit_clean (B : List Char)
    (hB : ∀ j, j ≤ wsPrefixLen B → B.get? j ≠ some '\n') :
    closeSplit ('\n' :: B) = some B := by
  have hws : wsPrefixLen ('\n' :: B) = wsPrefixLen B + 1 := by
    simp [wsPrefixLen, List.takeWhile_cons, show isJsSpace '\n' = true by decide]
  have hno : ∀ i, 1 ≤ i → i ≤ wsPrefixLen B + 1 → ('\n' :: B).get? i ≠ some '\n' := by
    intro i h1 h2
    match i, h1 with
    | i + 1, _ =>
      show B.get? i ≠ some '\n'
      exact hB i (by omega)
  rw [closeSplit, hws, closeLoop_skip _ _ hno, closeLoop]
  simp

/-- A failed `\n---` prefix test inside the metadata section is not rescued by
the appended real delimiter (whose second character is a newline, not a dash). -/
theorem sep_prefix_straddle (c : Char) (M' B : List Char)
    (h : (cs "\n---").isPrefixOf (c :: M') = false) :
    (cs "\n---").isPrefixOf (c :: (M' ++ (cs "\n---\n" ++ B))) = false := by
  match M' with
  | [] =>
    show (['\n', '-', '-', '-']).isPrefixOf (c :: '\n' :: '-' :: '-' :: '-' :: '\n' :: B) = false
    simp [List.isPrefixOf, show (('-' : Char) == '\n') = false from rfl]
  | [d] =>
    show (['\n', '-', '-', '-']).isPrefixOf (c :: d :: '\n' :: '-' :: '-' :: '-' :: '\n' :: B) = false
    simp [List.isPrefixOf, show (('-' : Char) == '\n') = false from rfl]
  | [d, e] =>
    show (['\n', '-', '-', '-']).isPrefixOf (c :: d :: e :: '\n' :: '-' :: '-' :: '-' :: '\n' :: B) = false
    simp [List.isPrefixOf, show (('-' : Char) == '\n') = false from rfl]
  | d :: e :: f :: M'' =>
    show (['\n', '-', '-', '-']).isPrefixOf (c :: d :: e :: f :: (M'' ++ (cs "\n---\n" ++ B))) = false
    have h' : (['\n', '-', '-', '-']).isPrefixOf (c :: d :: e :: f :: M'') = false := h
    simp only [List.isPrefixOf] at h' ⊢
    simpa using h'

/-- The lazy group stops exactly at the real delimiter when the metadata text
contains no `\n---` of its own and the body's whitespace prefix adds no
newline. -/
theorem bodyLoop_exact (M B : List Char)
    (hSep : occursIn (cs "\n---") M = false)
    (hB : ∀ j, j ≤ wsPrefixLen B → B.get? j ≠ some '\n') :
    ∀ acc, bodyLoop acc (M ++ (cs "\n---\n" ++ B)) = some (acc.reverse ++ M, B) := by
  induction M with
  | nil =>
    intro acc
    show bodyLoop acc ('\n' :: '-' :: '-' :: '-' :: '\n' :: B) = some (acc.reverse ++ [], B)
    rw [bodyLoop,
      if_pos (show (cs "\n---").isPrefixOf ('\n' :: '-' :: '-' :: '-' :: '\n' :: B) = true
        from rfl)]
    have hdrop : ('\n' :: '-' :: '-' :: '-' :: '\n' :: B).drop 4 = '\n' :: B := rfl
    rw [hdrop, closeSplit_clean B hB]
    simp
  | cons c M' ih =>
    intro acc
    have hocc : occursIn (cs "\n---") (c :: M') = false := hSep
    rw [occursIn, Bool.or_eq_false_iff] at hocc
    show bodyLoop acc (c :: (M' ++ (cs "\n---\n" ++ B))) = some (acc.reverse ++ c :: M', B)
    rw [bodyLoop, if_neg (by rw [sep_prefix_straddle c M' B hocc.1]; exact Bool.false_ne_true),
      ih hocc.2 (c :: acc)]
    simp

/-- Evaluating `fmMatch` on a well-delimited document: the groups are exactly the
metadata text and the body. -/
theorem fmMatch_exact (mc : Char) (M' B : List Char)
    (hmc : isJsSpace mc = false)
    (hSep : occursIn (cs "\n---") (mc :: M') = false)
    (hB : ∀ j, j ≤ wsPrefixLen B → B.get? j ≠ some '\n') :
    fmMatch (cs "---\n" ++ (mc :: M') ++ cs "\n---\n" ++ B) = some (mc :: M', B) := by
  have hshape : cs "---\n" ++ (mc :: M') ++ cs "\n---\n" ++ B =
      '-' :: '-' :: '-' :: '\n' :: mc :: (M' ++ (cs "\n---\n" ++ B)) := by
    simp [cs, List.append_assoc]
  rw [hshape, fmMatch]
  rw [if_pos (show (cs "---").isPrefixOf
    ('-' :: '-' :: '-' :: '\n' :: mc :: (M' ++ (cs "\n---\n" ++ B))) = true from rfl)]
  have hdrop : ('-' :: '-' :: '-' :: '\n' :: mc :: (M' ++ (cs "\n---\n" ++ B))).drop 3 =
      '\n' :: mc :: (M' ++ (cs "\n---\n" ++ B)) := rfl
  rw [hdrop]
  have hws : wsPrefixLen ('\n' :: mc :: (M' ++ (cs "\n---\n" ++ B))) = 1 := by
    simp [wsPrefixLen, List.takeWhile_cons, hmc, show isJsSpace '\n' = true by decide]
  rw [hws]
  have hget1 : ('\n' :: mc :: (M' ++ (cs "\n---\n" ++ B))).get? 1 ≠ some '\n' := by
    intro hcontra
    simp only [List.get?] at hcontra
    have : mc = '\n' := by injection hcontra
    rw [this] at hmc
    exact absurd hmc (by decide)
  rw [openLoop, if_neg hget1]
  rw [show openLoop ('\n' :: mc :: (M' ++ (cs "\n---\n" ++ B))) 0 =
    bodyLoop [] (('\n' :: mc :: (M' ++ (cs "\n---\n" ++ B))).drop 1) from rfl]
  rw [show ('\n' :: mc :: (M' ++ (cs "\n---\n" ++ B))).drop 1 =
    (mc :: M') ++ (cs "\n---\n" ++ B) from rfl]
  rw [bodyLoop_exact (mc :: M') B hSep hB []]
  rfl

/-- Mirror of `js-yaml` on the single input the C6 counterexample feeds it. -/
def yamlLoadC6 : List Char → Except Unit JsVal := fun m =>
  if m = cs "a: 1" then .ok (.obj [(cs "a", .n 1)]) else .error ()

/-- C6 counterexample: for `T = "---\n" + M + "\n---\n" + B` with the valid
metadata `M = "a: 1"` and body `B = "\nX"`, the greedy closing `\s*` of the
split regex also consumes the body's leading blank line, so the returned body
is `"X"`, not `B` — the output is not byte-identical to the source minus the
delimiter block. -/
theorem c6_body_not_exact :
    (parseYamlFrontMatter yamlLoadC6 (cs "---\n" ++ cs "a: 1" ++ cs "\n---\n" ++ cs "\nX")).2.1 =
      cs "X" ∧
    cs "X" ≠ cs "\nX" ∧
    yamlLoadC6 (cs "a: 1") = .ok (.obj [(cs "a", .n 1)]) :=
  ⟨rfl, by decide, rfl⟩

/-- C6 (amended): the splitter returns exactly `(parsed M, B)` provided the
metadata text starts with a non-whitespace character, contains no `\n---` of
its own (js-yaml rejects multi-document streams, so a valid single document
cannot contain a top-level separator line), and the body does not begin with
whitespace containing a newline (otherwise the closing `\s*` consumes it). -/
theorem c6_front_matter_split (yamlLoad : List Char → Except Unit JsVal)
    (mc : Char) (M' B : List Char) (kvs : List (List Char × JsVal))
    (hmc : isJsSpace mc = false)
    (hSep : occursIn (cs "\n---") (mc :: M') = false)
    (hB : ∀ j, j ≤ wsPrefixLen B → B.get? j ≠ some '\n')
    (hParse : yamlLoad (mc :: M') = .ok (.obj kvs)) :
    parseYamlFrontMatter yamlLoad (cs "---\n" ++ (mc :: M') ++ cs "\n---\n" ++ B) =
      (.obj kvs, B, []) := by
  simp only [parseYamlFrontMatter, fmMatch_exact mc M' B hmc hSep hB, hParse, isFalsyJs]
  simp

/-- Witness for C6 (amended). -/
theorem c6_front_matter_split_witness :
    parseYamlFrontMatter
      (fun m => if m = cs "a: 1" then .ok (.obj [(cs "a", .n 1)]) else .error ())
      (cs "---\n" ++ (cs "a: 1") ++ cs "\n---\n" ++ cs "body\n") =
      (.obj [(cs "a", .n 1)], cs "body\n", []) := by
  have h := c6_front_matter_split
    (fun m => if m = cs "a: 1" then .ok (.obj [(cs "a", .n 1)]) else .error ())
    'a' (cs ": 1") (cs "body\n") [(cs "a", .n 1)]
    (by decide) (by decide) (by decide) rfl
  exact h

/-- C7: when the correctly delimited leading block fails to parse, the splitter
returns the empty mapping together with the whole original text (the block is
discarded, never partially salvaged), logs a warning, and returns normally. -/
theorem c7_malformed_front_matter (yamlLoad : List Char → Except Unit JsVal)
    (mc : Char) (M' B : List Char)
    (hmc : isJsSpace mc = false)
    (hSep : occursIn (cs "\n---") (mc :: M') = false)
    (hB : ∀ j, j ≤ wsPrefixLen B → B.get? j ≠ some '\n')
    (hParse : yamlLoad (mc :: M') = .error ()) :
    parseYamlFrontMatter yamlLoad (cs "---\n" ++ (mc :: M') ++ cs "\n---\n" ++ B) =
      (.obj [], cs "---\n" ++ (mc :: M') ++ cs "\n---\n" ++ B, [.yamlParseFailed]) := by
  simp only [parseYamlFrontMatter, fmMatch_exact mc M' B hmc hSep hB, hParse]

/-- Witness for C7: a block that js-yaml would reject. -/
theorem c7_malformed_front_matter_witness :
    parseYamlFrontMatter (fun _ => .error ())
      (cs "---\n" ++ (cs "a: [") ++ cs "\n---\n" ++ cs "body") =
      (.obj [], cs "---\n" ++ (cs "a: [") ++ cs "\n---\n" ++ cs "body", [.yamlParseFailed]) :=
  c7_malformed_front_matter (fun _ => .error ()) 'a' (cs ": [") (cs "body")
    (by decide) (by decide) (by decide) rfl

/-- C10: a correctly delimited block whose content loads as null/undefined
(e.g. an all-comment block) yields the empty mapping and ONLY the remaining
body — the delimiter block is consumed, unlike the malformed case. -/
theorem c10_empty_front_matter (yamlLoad : List Char → Except Unit JsVal)
    (mc : Char) (M' B : List Char)
    (hmc : isJsSpace mc = false)
    (hSep : occursIn (cs "\n---") (mc :: M') = false)
    (hB : ∀ j, j ≤ wsPrefixLen B → B.get? j ≠ some '\n')
    (hParse : yamlLoad (mc :: M') = .ok .nul) :
    parseYamlFrontMatter yamlLoad (cs "---\n" ++ (mc :: M') ++ cs "\n---\n" ++ B) =
      (.obj [], B, []) := by
  simp only [parseYamlFrontMatter, fmMatch_exact mc M' B hmc hSep hB, hParse, isFalsyJs]
  simp

/-- Witness for C10: an all-comment block is consumed and yields no metadata. -/
theorem c10_empty_front_matter_witness :
    parseYamlFrontMatter (fun m => if m = cs "# note" then .ok .nul else .error ())
      (cs "---\n" ++ (cs "# note") ++ cs "\n---\n" ++ cs "body") =
      (.obj [], cs "body", []) :=
  c10_empty_front_matter (fun m => if m = cs "# note" then .ok .nul else .error ())
    '#' (cs " note") (cs "body") (by decide) (by decide) (by decide) rfl

def lbrace : Char := Char.ofNat 123

/-- A successful prefix test yields an append decomposition. -/
theorem isPrefixOf_exists (p : List Char) :
    ∀ s, p.isPrefixOf s = true → ∃ t, s = p ++ t := by
  induction p with
  | nil => intro s _; exact ⟨s, rfl⟩
  | cons c pt ih =>
    intro s h
    cases s with
    | nil => simp [List.isPrefixOf] at h
    | cons d st =>
      simp only [List.isPrefixOf, Bool.and_eq_true, beq_iff_eq] at h
      obtain ⟨t, ht⟩ := ih st h.2
      exact ⟨t, by simp [h.1, ht]⟩

theorem isPrefixOf_append_self (p : List Char) : ∀ b, p.isPrefixOf (p ++ b) = true := by
  induction p with
  | nil => intro b; simp [List.isPrefixOf]
  | cons c pt ih => intro b; simp [List.isPrefixOf, ih b]

/-- A pattern planted in the middle of a string is found. -/
theorem occursIn_sandwich (p : List Char) : ∀ a b, occursIn p (a ++ (p ++ b)) = true := by
  intro a
  induction a with
  | nil =>
    intro b
    cases p with
    | nil =>
      cases b with
      | nil => rfl
      | cons c t => rfl
    | cons c pt => simp [occursIn, isPrefixOf_append_self]
  | cons x a' ih =>
    intro b
    simp [occursIn, ih b]

/-- Every character of a found pattern is a character of the subject. -/
theorem mem_of_occursIn (p : List Char) (c : Char) (hc : c ∈ p) :
    ∀ s, occursIn p s = true → c ∈ s := by
  intro s
  induction s with
  | nil =>
    intro h
    rw [occursIn] at h
    have hp : p = [] := by simpa using h
    exact absurd (hp ▸ hc) (List.not_mem_nil c)
  | cons d t ih =>
    intro h
    rw [occursIn, Bool.or_eq_true] at h
    rcases h with h | h
    · obtain ⟨rest, hrest⟩ := isPrefixOf_exists p (d :: t) h
      rw [hrest]
      exact List.mem_append_left rest hc
    · exact List.mem_cons_of_mem d (ih h)

/-- A global replace with an absent pattern is the identity. -/
theorem replaceAll_not_occur (pat r : List Char) :
    ∀ s, occursIn pat s = false → replaceAll pat r s = s := by
  intro s
  induction s with
  | nil => intro _; rw [replaceAll]
  | cons c t ih =>
    intro h
    rw [occursIn, Bool.or_eq_false_iff] at h
    rw [replaceAll, if_neg (by simp [h.1]), ih h.2]

/-- A global replace fires at an immediate pattern occurrence. -/
theorem replaceAll_append_head (pat r t2 : List Char) (hp : pat ≠ []) :
    replaceAll pat r (pat ++ t2) = r ++ replaceAll pat r t2 := by
  match pat, hp with
  | p0 :: pt, _ =>
    show replaceAll (p0 :: pt) r ((p0 :: pt) ++ t2) = _
    rw [List.cons_append, replaceAll,
      if_pos ⟨by simp, by rw [← List.cons_append]; exact isPrefixOf_append_self _ _⟩]
    have : (pt ++ t2).drop ((p0 :: pt).length - 1) = t2 := by
      simp only [List.length_cons, Nat.add_sub_cancel]
      exact List.drop_left pt t2
    rw [this]

/-- The heading placeholder cannot start inside brace-free template text, so
the first replacement happens exactly at the planted placeholder. -/
theorem replaceAll_split_placeholder (r t2 : List Char) :
    ∀ t1, lbrace ∉ t1 →
      replaceAll headingPlaceholder r (t1 ++ (headingPlaceholder ++ t2)) =
        t1 ++ r ++ replaceAll headingPlaceholder r t2 := by
  intro t1
  induction t1 with
  | nil =>
    intro _
    simp only [List.nil_append]
    rw [replaceAll_append_head _ _ _ (by decide)]
  | cons a t1' ih =>
    intro h
    have ha : ¬(lbrace = a) ∧ lbrace ∉ t1' := by
      simpa [List.mem_cons] using h
    have hpref : headingPlaceholder.isPrefixOf (a :: (t1' ++ (headingPlaceholder ++ t2))) =
        false := by
      match t1' with
      | [] =>
        show (cs "/*\x7b\x7bHEADING_NUMBER_CSS\x7d\x7d*/").isPrefixOf
          (a :: '/' :: '*' :: lbrace :: (cs "\x7bHEADING_NUMBER_CSS\x7d\x7d*/" ++ t2)) = false
        simp [List.isPrefixOf, cs, show (('*' : Char) == '/') = false from rfl]
      | [d] =>
        show (cs "/*\x7b\x7bHEADING_NUMBER_CSS\x7d\x7d*/").isPrefixOf
          (a :: d :: '/' :: '*' :: lbrace :: (cs "\x7bHEADING_NUMBER_CSS\x7d\x7d*/" ++ t2)) =
          false
        simp [List.isPrefixOf, cs, show ((lbrace : Char) == '/') = false from rfl]
      | d :: e :: t1'' =>
        have he : ¬(e = lbrace) := by
          intro hcontra
          exact ha.2 (by simp [hcontra])
        show (cs "/*\x7b\x7bHEADING_NUMBER_CSS\x7d\x7d*/").isPrefixOf
          (a :: d :: e :: (t1'' ++ (headingPlaceholder ++ t2))) = false
        simp only [cs, List.isPrefixOf, Bool.and_eq_false_iff]
        right; right; left
        simpa using fun hcontra => he hcontra.symm
    show replaceAll headingPlaceholder r (a :: (t1' ++ (headingPlaceholder ++ t2))) = _
    rw [replaceAll, if_neg (by simp [hpref]), ih ha.2]
    simp

theorem hasAdj_cons_of_ne (c a : Char) (rest : List Char) (ha : ¬(a = c)) :
    hasAdj c (a :: rest) = hasAdj c rest := by
  cases rest with
  | nil => rfl
  | cons b t => simp [hasAdj, ha]

theorem hasAdj_false_of_not_mem (c : Char) :
    ∀ y, c ∉ y → hasAdj c y = false := by
  intro y
  induction y with
  | nil => intro _; rfl
  | cons a t ih =>
    intro h
    have ha : ¬(a = c) := fun hc => h (by simp [hc])
    rw [hasAdj_cons_of_ne c a t ha]
    exact ih (fun hc => h (by simp [hc]))

theorem hasAdj_cons_tail (c a : Char) (rest : List Char) (h : hasAdj c rest = true) :
    hasAdj c (a :: rest) = true := by
  cases rest with
  | nil => simp [hasAdj] at h
  | cons b t => simp [hasAdj, h]

theorem hasAdj_append_left (c : Char) :
    ∀ p z, hasAdj c p = true → hasAdj c (p ++ z) = true := by
  intro p
  induction p with
  | nil => intro z h; simp [hasAdj] at h
  | cons a p' ih =>
    intro z h
    cases p' with
    | nil => simp [hasAdj] at h
    | cons b p'' =>
      rw [hasAdj, Bool.or_eq_true] at h
      rcases h with h | h
      · show hasAdj c (a :: b :: (p'' ++ z)) = true
        simp only [hasAdj, h]
        simp
      · exact hasAdj_cons_tail c a _ (ih z h)

/-- A found pattern with an adjacent repeated character forces the same
adjacency in the subject. -/
theorem hasAdj_of_occursIn (c : Char) (p : List Char) (hadj : hasAdj c p = true) :
    ∀ s, occursIn p s = true → hasAdj c s = true := by
  intro s
  induction s with
  | nil =>
    intro h
    rw [occursIn] at h
    have hp : p = [] := by simpa [List.isEmpty_iff] using h
    rw [hp] at hadj
    simp [hasAdj] at hadj
  | cons d t ih =>
    intro h
    rw [occursIn, Bool.or_eq_true] at h
    rcases h with h | h
    · obtain ⟨rest, hrest⟩ := isPrefixOf_exists p (d :: t) h
      rw [hrest]
      exact hasAdj_append_left c p rest hadj
    · exact hasAdj_cons_tail c d t (ih h)

theorem hasAdj_append_of_not_mem_left (c : Char) :
    ∀ x y, c ∉ x → hasAdj c (x ++ y) = hasAdj c y := by
  intro x
  induction x with
  | nil => intro y _; rfl
  | cons a x' ih =>
    intro y h
    have ha : ¬(a = c) := fun hc => h (by simp [hc])
    rw [List.cons_append, hasAdj_cons_of_ne c a _ ha]
    exact ih y (fun hc => h (by simp [hc]))

theorem hasAdj_append_no_right (c : Char) :
    ∀ x y, hasAdj c x = false → c ∉ y → hasAdj c (x ++ y) = false := by
  intro x
  induction x with
  | nil => intro y _ hy; exact hasAdj_false_of_not_mem c y hy
  | cons a x' ih =>
    intro y hx hy
    by_cases hac : a = c
    · subst hac
      cases x' with
      | nil =>
        cases y with
        | nil => rfl
        | cons b yt =>
          have hb : ¬(b = a) := fun hc => hy (by simp [hc])
          show hasAdj a (a :: b :: yt) = false
          simp only [hasAdj, Bool.or_eq_false_iff]
          refine ⟨by simp [hb], ?_⟩
          have := hasAdj_false_of_not_mem a (b :: yt) hy
          rwa [hasAdj_cons_of_ne a b yt hb] at this ⊢
      | cons b x'' =>
        rw [hasAdj, Bool.or_eq_false_iff] at hx
        show hasAdj a (a :: b :: (x'' ++ y)) = false
        simp only [hasAdj, Bool.or_eq_false_iff]
        exact ⟨by simpa using hx.1, ih y hx.2 hy⟩
    · rw [List.cons_append, hasAdj_cons_of_ne c a _ hac]
      rw [hasAdj_cons_of_ne c a _ hac] at hx
      exact ih y hx hy

/-- One step of the `buildHtml` replace chain is the identity when the pattern
carries a doubled brace and the subject has no doubled brace. -/
theorem replaceAll_id_of_brace (pat r s : List Char) (hadj : hasAdj lbrace pat = true)
    (hs : hasAdj lbrace s = false) : replaceAll pat r s = s := by
  apply replaceAll_not_occur
  cases hocc : occursIn pat s with
  | false => rfl
  | true => rw [hasAdj_of_occursIn lbrace pat hadj s hocc] at hs; cases hs

/-- Prefix testing across an append only consults the left part when that part
is long enough. -/
theorem isPrefixOf_append_of_le (p : List Char) :
    ∀ a z : List Char, p.length ≤ a.length → p.isPrefixOf (a ++ z) = p.isPrefixOf a := by
  induction p with
  | nil => intro a z _; simp [List.isPrefixOf]
  | cons c pt ih =>
    intro a z h
    cases a with
    | nil => simp at h
    | cons d at' =>
      simp only [List.cons_append, List.isPrefixOf, List.append_eq]
      rw [ih at' z (by simpa using h)]

/-- A short left part of a matched append is itself a pattern prefix. -/
theorem isPrefixOf_of_append_short (p : List Char) :
    ∀ a z : List Char, p.isPrefixOf (a ++ z) = true → a.length ≤ p.length →
      a.isPrefixOf p = true := by
  induction p with
  | nil =>
    intro a z h ha
    cases a with
    | nil => rfl
    | cons d at' => simp at ha
  | cons c pt ih =>
    intro a z h ha
    cases a with
    | nil => rfl
    | cons d at' =>
      simp only [List.cons_append, List.isPrefixOf, Bool.and_eq_true, beq_iff_eq] at h ⊢
      exact ⟨h.1.symm, ih at' z h.2 (by simpa using ha)⟩

/-- The pattern tail left over after matching past a short left part. -/
theorem isPrefixOf_drop_of_append (z : List Char) :
    ∀ (a p : List Char), p.isPrefixOf (a ++ z) = true → a.length ≤ p.length →
      (p.drop a.length).isPrefixOf z = true := by
  intro a
  induction a with
  | nil => intro p h _; simpa using h
  | cons d at' ih =>
    intro p h hl
    cases p with
    | nil => simp at hl
    | cons c pt =>
      simp only [List.cons_append, List.isPrefixOf, Bool.and_eq_true] at h
      simpa using ih pt h.2 (by simpa using hl)

/-- Truncating a matching pattern to the left part's length matches that part. -/
theorem take_isPrefixOf_of_append (z : List Char) :
    ∀ (a p : List Char), p.isPrefixOf (a ++ z) = true →
      (p.take a.length).isPrefixOf a = true := by
  intro a
  induction a with
  | nil => intro p _; simp [List.isPrefixOf]
  | cons d at' ih =>
    intro p h
    cases p with
    | nil => rfl
    | cons c pt =>
      simp only [List.cons_append, List.isPrefixOf, Bool.and_eq_true, beq_iff_eq] at h
      simp only [List.length_cons, List.take_succ_cons, List.isPrefixOf, Bool.and_eq_true,
        beq_iff_eq]
      exact ⟨h.1, ih pt h.2⟩

/-- A prefix match at some offset is an occurrence. -/
theorem occursIn_of_prefix_drop (p : List Char) :
    ∀ (s : List Char) (i : Nat), p.isPrefixOf (s.drop i) = true → occursIn p s = true := by
  intro s
  induction s with
  | nil =>
    intro i h
    rw [List.drop_nil] at h
    cases p with
    | nil => rfl
    | cons c pt => simp [List.isPrefixOf] at h
  | cons d t ih =>
    intro i h
    cases i with
    | zero =>
      rw [occursIn, Bool.or_eq_true]
      exact Or.inl (by simpa using h)
    | succ i' =>
      rw [occursIn, Bool.or_eq_true]
      exact Or.inr (ih i' (by simpa using h))

/-- Decomposition of an occurrence across an append: it lies in the left part,
in the right part, or straddles the boundary, leaving a nonempty pattern
prefix as a tail of the left part and the corresponding pattern tail as a
prefix of the right part. -/
theorem occursIn_append_cases (p : List Char) :
    ∀ x z : List Char, occursIn p (x ++ z) = true →
      occursIn p x = true ∨ occursIn p z = true ∨
      ∃ j, 0 < j ∧ j < p.length ∧ j ≤ x.length ∧
        (x.drop (x.length - j)).isPrefixOf p = true ∧ (p.drop j).isPrefixOf z = true := by
  intro x
  induction x with
  | nil => intro z h; exact Or.inr (Or.inl (by simpa using h))
  | cons d x' ih =>
    intro z h
    rw [List.cons_append, occursIn, Bool.or_eq_true] at h
    rcases h with h | h
    · by_cases hlen : p.length ≤ (d :: x').length
      · refine Or.inl ?_
        rw [occursIn, Bool.or_eq_true]
        refine Or.inl ?_
        rw [← isPrefixOf_append_of_le p (d :: x') z hlen]
        simpa using h
      · refine Or.inr (Or.inr ⟨(d :: x').length, by simp, by omega, le_refl _, ?_, ?_⟩)
        · rw [Nat.sub_self]
          exact isPrefixOf_of_append_short p (d :: x') z (by simpa using h) (by omega)
        · exact isPrefixOf_drop_of_append z (d :: x') p (by simpa using h) (by omega)
    · rcases ih z h with h1 | h1 | ⟨j, hj0, hjp, hjx, hsuf, hpre⟩
      · refine Or.inl ?_
        rw [occursIn, Bool.or_eq_true]
        exact Or.inr h1
      · exact Or.inr (Or.inl h1)
      · refine Or.inr (Or.inr ⟨j, hj0, hjp, by simp only [List.length_cons]; omega, ?_, hpre⟩)
        have harith : (d :: x').length - j = (x'.length - j) + 1 := by
          simp only [List.length_cons]
          omega
        rw [harith, List.drop_succ_cons]
        exact hsuf

/-- No occurrence in an append when the left part is a clean concrete segment
and the right part is occurrence-free. -/
theorem occ_false_left (p k z : List Char) (hk : segOKL p k)
    (hz : occursIn p z = false) : occursIn p (k ++ z) = false := by
  cases hocc : occursIn p (k ++ z) with
  | false => rfl
  | true =>
    rcases occursIn_append_cases p k z hocc with h | h | ⟨j, hj0, hjp, hjk, hsuf, _⟩
    · rw [hk.1] at h; cases h
    · rw [hz] at h; cases h
    · rw [hk.2 j hjp hj0 hjk] at hsuf; cases hsuf

/-- No occurrence in an append whose left part is a symbolic occurrence-free
value followed by a concrete segment blocking entry from the left. -/
theorem occ_false_sym (p v k z : List Char) (hv : occursIn p v = false)
    (hk : segOKR p k) (hrest : occursIn p (k ++ z) = false) :
    occursIn p (v ++ (k ++ z)) = false := by
  cases hocc : occursIn p (v ++ (k ++ z)) with
  | false => rfl
  | true =>
    rcases occursIn_append_cases p v (k ++ z) hocc with h | h | ⟨j, hj0, hjp, _, _, hpre⟩
    · rw [hv] at h; cases h
    · rw [hrest] at h; cases h
    · have htake := take_isPrefixOf_of_append z k (p.drop j) hpre
      rw [hk j hjp hj0] at htake
      cases htake

/-- A clean concrete segment admits no occurrence start, whatever follows. -/
theorem noStart_left (p k z : List Char) (hk : segOKL p k) : noStartIn p k z := by
  intro i hi
  rw [List.drop_append_of_le_length (by omega)]
  have hdl : (k.drop i).length = k.length - i := List.length_drop i k
  by_cases hlen : p.length ≤ (k.drop i).length
  · rw [isPrefixOf_append_of_le p (k.drop i) z hlen]
    cases hpre : p.isPrefixOf (k.drop i) with
    | false => rfl
    | true =>
      have hocc := occursIn_of_prefix_drop p k i hpre
      rw [hk.1] at hocc
      cases hocc
  · cases hpre : p.isPrefixOf (k.drop i ++ z) with
    | false => rfl
    | true =>
      have hshort := isPrefixOf_of_append_short p (k.drop i) z hpre (by omega)
      have hcond := hk.2 (k.length - i) (by omega) (by omega) (by omega)
      rw [show k.length - (k.length - i) = i from by omega] at hcond
      rw [hcond] at hshort
      cases hshort

/-- A symbolic occurrence-free value admits no occurrence start when its
follower blocks crossing. -/
theorem noStart_sym (p v k z : List Char) (hv : occursIn p v = false)
    (hk : segOKR p k) : noStartIn p v (k ++ z) := by
  intro i hi
  rw [List.drop_append_of_le_length (by omega)]
  have hdl : (v.drop i).length = v.length - i := List.length_drop i v
  by_cases hlen : p.length ≤ (v.drop i).length
  · rw [isPrefixOf_append_of_le p (v.drop i) (k ++ z) hlen]
    cases hpre : p.isPrefixOf (v.drop i) with
    | false => rfl
    | true =>
      have hocc := occursIn_of_prefix_drop p v i hpre
      rw [hv] at hocc
      cases hocc
  · cases hpre : p.isPrefixOf (v.drop i ++ (k ++ z)) with
    | false => rfl
    | true =>
      have hdrop := isPrefixOf_drop_of_append (k ++ z) (v.drop i) p hpre (by omega)
      have htake := take_isPrefixOf_of_append z k (p.drop (v.drop i).length) hdrop
      have hcond := hk (v.drop i).length (by omega) (by omega)
      rw [hcond] at htake
      cases htake

/-- Composition of no-start guarantees across an append. -/
theorem noStart_append (p x y z : List Char) (hx : noStartIn p x (y ++ z))
    (hy : noStartIn p y z) : noStartIn p (x ++ y) z := by
  intro i hi
  rw [List.append_assoc]
  by_cases hix : i < x.length
  · exact hx i hix
  · have hlen : i - x.length < y.length := by
      simp only [List.length_append] at hi
      omega
    have hdrop : (x ++ (y ++ z)).drop i = (y ++ z).drop (i - x.length) := by
      conv_lhs => rw [show i = x.length + (i - x.length) from by omega]
      exact List.drop_append (i - x.length)
    rw [hdrop]
    exact hy (i - x.length) hlen

/-- No occurrence anywhere in an alternating value/segment concatenation. -/
theorem occursIn_altCat_false (p : List Char) (hp : occursIn p [] = false) :
    ∀ pairs : List (List Char × List Char),
      (∀ pr ∈ pairs, segPairOK p pr) → occursIn p (altCat pairs) = false := by
  intro pairs
  induction pairs with
  | nil => intro _; exact hp
  | cons pr rest ih =>
    intro h
    obtain ⟨v, k⟩ := pr
    have hpr := h (v, k) (by simp)
    have hrest : ∀ q ∈ rest, segPairOK p q := fun q hq => h q (by simp [hq])
    show occursIn p (v ++ (k ++ altCat rest)) = false
    exact occ_false_sym p v k (altCat rest) hpr.1 hpr.2.2
      (occ_false_left p k (altCat rest) hpr.2.1 (ih hrest))

/-- No occurrence start anywhere in an alternating value/segment
concatenation. -/
theorem noStart_altCat (p z : List Char) :
    ∀ pairs : List (List Char × List Char),
      (∀ pr ∈ pairs, segPairOK p pr) → noStartIn p (altCat pairs) z := by
  intro pairs
  induction pairs with
  | nil => intro _ i hi; simp [altCat] at hi
  | cons pr rest ih =>
    intro h
    obtain ⟨v, k⟩ := pr
    have hpr := h (v, k) (by simp)
    have hrest : ∀ q ∈ rest, segPairOK p q := fun q hq => h q (by simp [hq])
    show noStartIn p (v ++ (k ++ altCat rest)) z
    refine noStart_append p v (k ++ altCat rest) z ?_ ?_
    · intro i hi
      have hs := noStart_sym p v k (altCat rest ++ z) hpr.1 hpr.2.2 i hi
      simpa [List.append_assoc] using hs
    · exact noStart_append p k (altCat rest) z
        (noStart_left p k (altCat rest ++ z) hpr.2.1) (ih hrest)

/-- The one-placeholder split of a global replace: when no occurrence starts
in the part before the planted pattern and none lies after it, the replace
substitutes exactly there. -/
theorem replaceAll_split_at (pat r w v : List Char) (hp : pat ≠ [])
    (hw : noStartIn pat w (pat ++ v)) (hv : occursIn pat v = false) :
    replaceAll pat r (w ++ (pat ++ v)) = w ++ r ++ v := by
  induction w with
  | nil =>
    simp only [List.nil_append]
    rw [replaceAll_append_head pat r v hp, replaceAll_not_occur pat r v hv]
  | cons a w' ih =>
    have h0 : pat.isPrefixOf (a :: (w' ++ (pat ++ v))) = false := by
      have := hw 0 (by simp)
      simpa using this
    show replaceAll pat r (a :: (w' ++ (pat ++ v))) = (a :: w') ++ r ++ v
    rw [replaceAll, if_neg (fun hcontra => absurd hcontra.2 (by simp [h0]))]
    rw [ih (fun i hi => by
      have := hw (i + 1) (by simp only [List.length_cons]; omega)
      simpa using this)]
    simp

/-- Occurrence-freeness of a value forced by the doubled-brace discipline. -/
theorem occ_false_of_adj (p v : List Char) (hp : hasAdj lbrace p = true)
    (hv : hasAdj lbrace v = false) : occursIn p v = false := by
  cases hocc : occursIn p v with
  | false => rfl
  | true => rw [hasAdj_of_occursIn lbrace p hp v hocc] at hv; cases hv

/-- Specification of the linear suffix checker. -/
theorem suffixesOK_drop (p : List Char) :
    ∀ k, suffixesOK p k = true → ∀ i, i < k.length →
      ¬((k.drop i).length < p.length ∧ (k.drop i).isPrefixOf p = true) := by
  intro k
  induction k with
  | nil => intro _ i hi; simp at hi
  | cons c t ih =>
    intro h i hi
    rw [suffixesOK, Bool.and_eq_true] at h
    cases i with
    | zero =>
      intro hcontra
      rw [List.drop_zero] at hcontra
      have h0 := h.1
      rw [Bool.not_eq_true', Bool.and_eq_false_iff] at h0
      rcases h0 with h0 | h0
      · rw [decide_eq_false_iff_not] at h0
        exact h0 hcontra.1
      · rw [h0] at hcontra
        exact absurd hcontra.2 (by simp)
    | succ i' =>
      intro hcontra
      exact ih h.2 i' (by simpa using hi) (by simpa using hcontra)

/-- Discharging the left segment condition from linear checks. -/
theorem segOKL_of_checks (p k : List Char) (h1 : occursIn p k = false)
    (h2 : suffixesOK p k = true) : segOKL p k := by
  refine ⟨h1, ?_⟩
  intro j hjp hj0 hjk
  have hi : k.length - j < k.length := by omega
  have hno := suffixesOK_drop p k h2 (k.length - j) hi
  have hlen : (k.drop (k.length - j)).length = j := by
    rw [List.length_drop]
    omega
  cases hpre : (k.drop (k.length - j)).isPrefixOf p with
  | false => rfl
  | true => exact absurd ⟨by rw [hlen]; exact hjp, hpre⟩ hno

/-- Specification of the linear tail checker. -/
theorem tailsOK_drop (k : List Char) :
    ∀ q, tailsOK k q = true → ∀ i, i < q.length →
      ((q.drop i).take k.length).isPrefixOf k = false := by
  intro q
  induction q with
  | nil => intro _ i hi; simp at hi
  | cons c t ih =>
    intro h i hi
    rw [tailsOK, Bool.and_eq_true] at h
    cases i with
    | zero =>
      rw [List.drop_zero]
      have h0 := h.1
      rw [Bool.not_eq_true'] at h0
      exact h0
    | succ i' =>
      simpa using ih h.2 i' (by simpa using hi)

/-- Discharging the right segment condition from the linear check. -/
theorem segOKR_of_checks (p k : List Char) (h : tailsOK k (p.drop 1) = true) : segOKR p k := by
  intro j hjp hj0
  have hj : p.drop j = (p.drop 1).drop (j - 1) := by
    rw [List.drop_drop]
    congr 1
    omega
  rw [hj]
  exact tailsOK_drop k (p.drop 1) h (j - 1) (by rw [List.length_drop]; omega)

/-- One step of the replace chain over a document presented as a leading
concrete segment, an alternating value/segment middle, the planted pattern,
and an occurrence-free tail. -/
theorem replace_step (p r K0 : List Char) (pairs : List (List Char × List Char))
    (V : List Char) (hp : p ≠ []) (hK0 : segOKL p K0)
    (hpairs : ∀ pr ∈ pairs, segPairOK p pr) (hV : occursIn p V = false) :
    replaceAll p r ((K0 ++ altCat pairs) ++ (p ++ V)) = (K0 ++ altCat pairs) ++ r ++ V := by
  refine replaceAll_split_at p r (K0 ++ altCat pairs) V hp ?_ hV
  exact noStart_append p K0 (altCat pairs) (p ++ V)
    (noStart_left p K0 (altCat pairs ++ (p ++ V)) hK0)
    (noStart_altCat p (p ++ V) pairs hpairs)

/-- The heading-numbering rule set never carries a doubled CSS brace. -/
theorem hasAdj_css (e : Bool) : hasAdj lbrace (buildHeadingNumberCSS e) = false := by
  cases e with
  | false => decide
  | true => decide

/-- Evaluating the whole `buildHtml` replace chain over the modelled template:
each placeholder is replaced exactly at its planted position, provided every
substituted value is free of doubled braces. -/
theorem buildHtml_model_chain (cfg : RenderConfig) (title body c : List Char)
    (ht : hasAdj lbrace title = false) (hb : hasAdj lbrace body = false)
    (hc : hasAdj lbrace c = false)
    (hf1 : hasAdj lbrace cfg.FONT_SIZE = false) (hf2 : hasAdj lbrace cfg.LINE_HEIGHT = false)
    (hf3 : hasAdj lbrace cfg.PADDING_X = false) (hf4 : hasAdj lbrace cfg.PADDING_Y = false)
    (hf5 : hasAdj lbrace cfg.CODE_FONT_SCALE = false) (hf6 : hasAdj lbrace cfg.PAGE_BG = false)
    (hf7 : hasAdj lbrace cfg.CODE_BG = false) (_hf8 : hasAdj lbrace cfg.MAX_WIDTH = false) :
    replaceAll (cs "\x7b\x7bMAX_WIDTH\x7d\x7d") cfg.MAX_WIDTH
    (replaceAll (cs "\x7b\x7bCODE_BG\x7d\x7d") cfg.CODE_BG
    (replaceAll (cs "\x7b\x7bPAGE_BG\x7d\x7d") cfg.PAGE_BG
    (replaceAll (cs "\x7b\x7bCODE_FONT_SCALE\x7d\x7d") cfg.CODE_FONT_SCALE
    (replaceAll (cs "\x7b\x7bPADDING_Y\x7d\x7d") cfg.PADDING_Y
    (replaceAll (cs "\x7b\x7bPADDING_X\x7d\x7d") cfg.PADDING_X
    (replaceAll (cs "\x7b\x7bLINE_HEIGHT\x7d\x7d") cfg.LINE_HEIGHT
    (replaceAll (cs "\x7b\x7bFONT_SIZE\x7d\x7d") cfg.FONT_SIZE
    (replaceAll (cs "\x7b\x7bBODY\x7d\x7d") body
     (replaceAll (cs "\x7b\x7bTITLE\x7d\x7d") title
      (replaceAll headingPlaceholder c tmplModel)))))))))) =
      tm0 ++ (title ++ (tmF0 ++ (cfg.FONT_SIZE ++ (tmF1 ++ (cfg.LINE_HEIGHT ++ (tmF2 ++ (cfg.PADDING_X ++ (tmF3 ++ (cfg.PADDING_Y ++ (tmF4 ++ (cfg.CODE_FONT_SCALE ++ (tmF5 ++ (cfg.PAGE_BG ++ (tmF6 ++ (cfg.CODE_BG ++ (tmF7 ++ (cfg.MAX_WIDTH ++ (tmF8 ++ (c ++ (tmF9 ++ (body ++ (tmF10)))))))))))))))))))))) := by
  have e1 : replaceAll headingPlaceholder c
      (tmplModel) =
      tm0 ++ (cs "\x7b\x7bTITLE\x7d\x7d" ++ (tmF0 ++ (cs "\x7b\x7bFONT_SIZE\x7d\x7d" ++ (tmF1 ++ (cs "\x7b\x7bLINE_HEIGHT\x7d\x7d" ++ (tmF2 ++ (cs "\x7b\x7bPADDING_X\x7d\x7d" ++ (tmF3 ++ (cs "\x7b\x7bPADDING_Y\x7d\x7d" ++ (tmF4 ++ (cs "\x7b\x7bCODE_FONT_SCALE\x7d\x7d" ++ (tmF5 ++ (cs "\x7b\x7bPAGE_BG\x7d\x7d" ++ (tmF6 ++ (cs "\x7b\x7bCODE_BG\x7d\x7d" ++ (tmF7 ++ (cs "\x7b\x7bMAX_WIDTH\x7d\x7d" ++ (tmF8 ++ (c ++ (tmF9 ++ (cs "\x7b\x7bBODY\x7d\x7d" ++ (tmF10)))))))))))))))))))))) := by
    rw [show tmplModel = ((tm0 ++ (cs "\x7b\x7bTITLE\x7d\x7d" ++ (tmF0 ++ (cs "\x7b\x7bFONT_SIZE\x7d\x7d" ++ (tmF1 ++ (cs "\x7b\x7bLINE_HEIGHT\x7d\x7d" ++ (tmF2 ++ (cs "\x7b\x7bPADDING_X\x7d\x7d" ++ (tmF3 ++ (cs "\x7b\x7bPADDING_Y\x7d\x7d" ++ (tmF4 ++ (cs "\x7b\x7bCODE_FONT_SCALE\x7d\x7d" ++ (tmF5 ++ (cs "\x7b\x7bPAGE_BG\x7d\x7d" ++ (tmF6 ++ (cs "\x7b\x7bCODE_BG\x7d\x7d" ++ (tmF7 ++ (cs "\x7b\x7bMAX_WIDTH\x7d\x7d" ++ (tmF8))))))))))))))))))) ++ altCat []) ++ (headingPlaceholder ++ (tmF9 ++ (cs "\x7b\x7bBODY\x7d\x7d" ++ (tmF10)))) from by
      simp [tmplModel, altCat, List.append_assoc]]
    rw [replace_step headingPlaceholder c (tm0 ++ (cs "\x7b\x7bTITLE\x7d\x7d" ++ (tmF0 ++ (cs "\x7b\x7bFONT_SIZE\x7d\x7d" ++ (tmF1 ++ (cs "\x7b\x7bLINE_HEIGHT\x7d\x7d" ++ (tmF2 ++ (cs "\x7b\x7bPADDING_X\x7d\x7d" ++ (tmF3 ++ (cs "\x7b\x7bPADDING_Y\x7d\x7d" ++ (tmF4 ++ (cs "\x7b\x7bCODE_FONT_SCALE\x7d\x7d" ++ (tmF5 ++ (cs "\x7b\x7bPAGE_BG\x7d\x7d" ++ (tmF6 ++ (cs "\x7b\x7bCODE_BG\x7d\x7d" ++ (tmF7 ++ (cs "\x7b\x7bMAX_WIDTH\x7d\x7d" ++ (tmF8))))))))))))))))))) []
      (tmF9 ++ (cs "\x7b\x7bBODY\x7d\x7d" ++ (tmF10))) (by decide) (by decide)
      (fun pr hpr => absurd hpr (List.not_mem_nil pr))
      (by decide)]
    simp [altCat, List.append_assoc]
  have e2 : replaceAll (cs "\x7b\x7bTITLE\x7d\x7d") title
      (tm0 ++ (cs "\x7b\x7bTITLE\x7d\x7d" ++ (tmF0 ++ (cs "\x7b\x7bFONT_SIZE\x7d\x7d" ++ (tmF1 ++ (cs "\x7b\x7bLINE_HEIGHT\x7d\x7d" ++ (tmF2 ++ (cs "\x7b\x7bPADDING_X\x7d\x7d" ++ (tmF3 ++ (cs "\x7b\x7bPADDING_Y\x7d\x7d" ++ (tmF4 ++ (cs "\x7b\x7bCODE_FONT_SCALE\x7d\x7d" ++ (tmF5 ++ (cs "\x7b\x7bPAGE_BG\x7d\x7d" ++ (tmF6 ++ (cs "\x7b\x7bCODE_BG\x7d\x7d" ++ (tmF7 ++ (cs "\x7b\x7bMAX_WIDTH\x7d\x7d" ++ (tmF8 ++ (c ++ (tmF9 ++ (cs "\x7b\x7bBODY\x7d\x7d" ++ (tmF10))))))))))))))))))))))) =
      tm0 ++ (title ++ (tmF0 ++ (cs "\x7b\x7bFONT_SIZE\x7d\x7d" ++ (tmF1 ++ (cs "\x7b\x7bLINE_HEIGHT\x7d\x7d" ++ (tmF2 ++ (cs "\x7b\x7bPADDING_X\x7d\x7d" ++ (tmF3 ++ (cs "\x7b\x7bPADDING_Y\x7d\x7d" ++ (tmF4 ++ (cs "\x7b\x7bCODE_FONT_SCALE\x7d\x7d" ++ (tmF5 ++ (cs "\x7b\x7bPAGE_BG\x7d\x7d" ++ (tmF6 ++ (cs "\x7b\x7bCODE_BG\x7d\x7d" ++ (tmF7 ++ (cs "\x7b\x7bMAX_WIDTH\x7d\x7d" ++ (tmF8 ++ (c ++ (tmF9 ++ (cs "\x7b\x7bBODY\x7d\x7d" ++ (tmF10)))))))))))))))))))))) := by
    rw [show (tm0 ++ (cs "\x7b\x7bTITLE\x7d\x7d" ++ (tmF0 ++ (cs "\x7b\x7bFONT_SIZE\x7d\x7d" ++ (tmF1 ++ (cs "\x7b\x7bLINE_HEIGHT\x7d\x7d" ++ (tmF2 ++ (cs "\x7b\x7bPADDING_X\x7d\x7d" ++ (tmF3 ++ (cs "\x7b\x7bPADDING_Y\x7d\x7d" ++ (tmF4 ++ (cs "\x7b\x7bCODE_FONT_SCALE\x7d\x7d" ++ (tmF5 ++ (cs "\x7b\x7bPAGE_BG\x7d\x7d" ++ (tmF6 ++ (cs "\x7b\x7bCODE_BG\x7d\x7d" ++ (tmF7 ++ (cs "\x7b\x7bMAX_WIDTH\x7d\x7d" ++ (tmF8 ++ (c ++ (tmF9 ++ (cs "\x7b\x7bBODY\x7d\x7d" ++ (tmF10))))))))))))))))))))))) = ((tm0) ++ altCat []) ++ ((cs "\x7b\x7bTITLE\x7d\x7d") ++ (tmF0 ++ (cs "\x7b\x7bFONT_SIZE\x7d\x7d" ++ (tmF1 ++ (cs "\x7b\x7bLINE_HEIGHT\x7d\x7d" ++ (tmF2 ++ (cs "\x7b\x7bPADDING_X\x7d\x7d" ++ (tmF3 ++ (cs "\x7b\x7bPADDING_Y\x7d\x7d" ++ (tmF4 ++ (cs "\x7b\x7bCODE_FONT_SCALE\x7d\x7d" ++ (tmF5 ++ (cs "\x7b\x7bPAGE_BG\x7d\x7d" ++ (tmF6 ++ (cs "\x7b\x7bCODE_BG\x7d\x7d" ++ (tmF7 ++ (cs "\x7b\x7bMAX_WIDTH\x7d\x7d" ++ (tmF8)))))))))))))))) ++ altCat [(c, tmF9 ++ (cs "\x7b\x7bBODY\x7d\x7d" ++ (tmF10)))])) from by
      simp [altCat, List.append_assoc]]
    rw [replace_step (cs "\x7b\x7bTITLE\x7d\x7d") title (tm0) []
      (tmF0 ++ (cs "\x7b\x7bFONT_SIZE\x7d\x7d" ++ (tmF1 ++ (cs "\x7b\x7bLINE_HEIGHT\x7d\x7d" ++ (tmF2 ++ (cs "\x7b\x7bPADDING_X\x7d\x7d" ++ (tmF3 ++ (cs "\x7b\x7bPADDING_Y\x7d\x7d" ++ (tmF4 ++ (cs "\x7b\x7bCODE_FONT_SCALE\x7d\x7d" ++ (tmF5 ++ (cs "\x7b\x7bPAGE_BG\x7d\x7d" ++ (tmF6 ++ (cs "\x7b\x7bCODE_BG\x7d\x7d" ++ (tmF7 ++ (cs "\x7b\x7bMAX_WIDTH\x7d\x7d" ++ (tmF8)))))))))))))))) ++ altCat [(c, tmF9 ++ (cs "\x7b\x7bBODY\x7d\x7d" ++ (tmF10)))]) (by decide) (by decide)
      (fun pr hpr => absurd hpr (List.not_mem_nil pr))
      (occ_false_left (cs "\x7b\x7bTITLE\x7d\x7d") (tmF0 ++ (cs "\x7b\x7bFONT_SIZE\x7d\x7d" ++ (tmF1 ++ (cs "\x7b\x7bLINE_HEIGHT\x7d\x7d" ++ (tmF2 ++ (cs "\x7b\x7bPADDING_X\x7d\x7d" ++ (tmF3 ++ (cs "\x7b\x7bPADDING_Y\x7d\x7d" ++ (tmF4 ++ (cs "\x7b\x7bCODE_FONT_SCALE\x7d\x7d" ++ (tmF5 ++ (cs "\x7b\x7bPAGE_BG\x7d\x7d" ++ (tmF6 ++ (cs "\x7b\x7bCODE_BG\x7d\x7d" ++ (tmF7 ++ (cs "\x7b\x7bMAX_WIDTH\x7d\x7d" ++ (tmF8))))))))))))))))) (altCat [(c, tmF9 ++ (cs "\x7b\x7bBODY\x7d\x7d" ++ (tmF10)))]) (by decide)
      (occursIn_altCat_false (cs "\x7b\x7bTITLE\x7d\x7d") (by decide) [(c, tmF9 ++ (cs "\x7b\x7bBODY\x7d\x7d" ++ (tmF10)))]
        (fun pr hpr => by
          simp only [List.mem_cons, List.not_mem_nil, or_false] at hpr
          rcases hpr with rfl
          exact ⟨occ_false_of_adj _ _ (by decide) hc, (by decide : segOKL (cs "\x7b\x7bTITLE\x7d\x7d") (tmF9 ++ (cs "\x7b\x7bBODY\x7d\x7d" ++ (tmF10)))), (by decide : segOKR (cs "\x7b\x7bTITLE\x7d\x7d") (tmF9 ++ (cs "\x7b\x7bBODY\x7d\x7d" ++ (tmF10))))⟩)))]
    simp [altCat, List.append_assoc]
  have e3 : replaceAll (cs "\x7b\x7bBODY\x7d\x7d") body
      (tm0 ++ (title ++ (tmF0 ++ (cs "\x7b\x7bFONT_SIZE\x7d\x7d" ++ (tmF1 ++ (cs "\x7b\x7bLINE_HEIGHT\x7d\x7d" ++ (tmF2 ++ (cs "\x7b\x7bPADDING_X\x7d\x7d" ++ (tmF3 ++ (cs "\x7b\x7bPADDING_Y\x7d\x7d" ++ (tmF4 ++ (cs "\x7b\x7bCODE_FONT_SCALE\x7d\x7d" ++ (tmF5 ++ (cs "\x7b\x7bPAGE_BG\x7d\x7d" ++ (tmF6 ++ (cs "\x7b\x7bCODE_BG\x7d\x7d" ++ (tmF7 ++ (cs "\x7b\x7bMAX_WIDTH\x7d\x7d" ++ (tmF8 ++ (c ++ (tmF9 ++ (cs "\x7b\x7bBODY\x7d\x7d" ++ (tmF10))))))))))))))))))))))) =
      tm0 ++ (title ++ (tmF0 ++ (cs "\x7b\x7bFONT_SIZE\x7d\x7d" ++ (tmF1 ++ (cs "\x7b\x7bLINE_HEIGHT\x7d\x7d" ++ (tmF2 ++ (cs "\x7b\x7bPADDING_X\x7d\x7d" ++ (tmF3 ++ (cs "\x7b\x7bPADDING_Y\x7d\x7d" ++ (tmF4 ++ (cs "\x7b\x7bCODE_FONT_SCALE\x7d\x7d" ++ (tmF5 ++ (cs "\x7b\x7bPAGE_BG\x7d\x7d" ++ (tmF6 ++ (cs "\x7b\x7bCODE_BG\x7d\x7d" ++ (tmF7 ++ (cs "\x7b\x7bMAX_WIDTH\x7d\x7d" ++ (tmF8 ++ (c ++ (tmF9 ++ (body ++ (tmF10)))))))))))))))))))))) := by
    rw [show (tm0 ++ (title ++ (tmF0 ++ (cs "\x7b\x7bFONT_SIZE\x7d\x7d" ++ (tmF1 ++ (cs "\x7b\x7bLINE_HEIGHT\x7d\x7d" ++ (tmF2 ++ (cs "\x7b\x7bPADDING_X\x7d\x7d" ++ (tmF3 ++ (cs "\x7b\x7bPADDING_Y\x7d\x7d" ++ (tmF4 ++ (cs "\x7b\x7bCODE_FONT_SCALE\x7d\x7d" ++ (tmF5 ++ (cs "\x7b\x7bPAGE_BG\x7d\x7d" ++ (tmF6 ++ (cs "\x7b\x7bCODE_BG\x7d\x7d" ++ (tmF7 ++ (cs "\x7b\x7bMAX_WIDTH\x7d\x7d" ++ (tmF8 ++ (c ++ (tmF9 ++ (cs "\x7b\x7bBODY\x7d\x7d" ++ (tmF10))))))))))))))))))))))) = ((tm0) ++ altCat [(title, tmF0 ++ (cs "\x7b\x7bFONT_SIZE\x7d\x7d" ++ (tmF1 ++ (cs "\x7b\x7bLINE_HEIGHT\x7d\x7d" ++ (tmF2 ++ (cs "\x7b\x7bPADDING_X\x7d\x7d" ++ (tmF3 ++ (cs "\x7b\x7bPADDING_Y\x7d\x7d" ++ (tmF4 ++ (cs "\x7b\x7bCODE_FONT_SCALE\x7d\x7d" ++ (tmF5 ++ (cs "\x7b\x7bPAGE_BG\x7d\x7d" ++ (tmF6 ++ (cs "\x7b\x7bCODE_BG\x7d\x7d" ++ (tmF7 ++ (cs "\x7b\x7bMAX_WIDTH\x7d\x7d" ++ (tmF8))))))))))))))))), (c, tmF9)]) ++ ((cs "\x7b\x7bBODY\x7d\x7d") ++ (tmF10)) from by
      simp [altCat, List.append_assoc]]
    rw [replace_step (cs "\x7b\x7bBODY\x7d\x7d") body (tm0) [(title, tmF0 ++ (cs "\x7b\x7bFONT_SIZE\x7d\x7d" ++ (tmF1 ++ (cs "\x7b\x7bLINE_HEIGHT\x7d\x7d" ++ (tmF2 ++ (cs "\x7b\x7bPADDING_X\x7d\x7d" ++ (tmF3 ++ (cs "\x7b\x7bPADDING_Y\x7d\x7d" ++ (tmF4 ++ (cs "\x7b\x7bCODE_FONT_SCALE\x7d\x7d" ++ (tmF5 ++ (cs "\x7b\x7bPAGE_BG\x7d\x7d" ++ (tmF6 ++ (cs "\x7b\x7bCODE_BG\x7d\x7d" ++ (tmF7 ++ (cs "\x7b\x7bMAX_WIDTH\x7d\x7d" ++ (tmF8))))))))))))))))), (c, tmF9)]
      (tmF10) (by decide) (by decide)
      (fun pr hpr => by
        simp only [List.mem_cons, List.not_mem_nil, or_false] at hpr
        rcases hpr with rfl | rfl
        · exact ⟨occ_false_of_adj _ _ (by decide) ht, (by decide : segOKL (cs "\x7b\x7bBODY\x7d\x7d") (tmF0 ++ (cs "\x7b\x7bFONT_SIZE\x7d\x7d" ++ (tmF1 ++ (cs "\x7b\x7bLINE_HEIGHT\x7d\x7d" ++ (tmF2 ++ (cs "\x7b\x7bPADDING_X\x7d\x7d" ++ (tmF3 ++ (cs "\x7b\x7bPADDING_Y\x7d\x7d" ++ (tmF4 ++ (cs "\x7b\x7bCODE_FONT_SCALE\x7d\x7d" ++ (tmF5 ++ (cs "\x7b\x7bPAGE_BG\x7d\x7d" ++ (tmF6 ++ (cs "\x7b\x7bCODE_BG\x7d\x7d" ++ (tmF7 ++ (cs "\x7b\x7bMAX_WIDTH\x7d\x7d" ++ (tmF8)))))))))))))))))), (by decide : segOKR (cs "\x7b\x7bBODY\x7d\x7d") (tmF0 ++ (cs "\x7b\x7bFONT_SIZE\x7d\x7d" ++ (tmF1 ++ (cs "\x7b\x7bLINE_HEIGHT\x7d\x7d" ++ (tmF2 ++ (cs "\x7b\x7bPADDING_X\x7d\x7d" ++ (tmF3 ++ (cs "\x7b\x7bPADDING_Y\x7d\x7d" ++ (tmF4 ++ (cs "\x7b\x7bCODE_FONT_SCALE\x7d\x7d" ++ (tmF5 ++ (cs "\x7b\x7bPAGE_BG\x7d\x7d" ++ (tmF6 ++ (cs "\x7b\x7bCODE_BG\x7d\x7d" ++ (tmF7 ++ (cs "\x7b\x7bMAX_WIDTH\x7d\x7d" ++ (tmF8))))))))))))))))))⟩
        · exact ⟨occ_false_of_adj _ _ (by decide) hc, (by decide : segOKL (cs "\x7b\x7bBODY\x7d\x7d") (tmF9)), (by decide : segOKR (cs "\x7b\x7bBODY\x7d\x7d") (tmF9))⟩)
      (by decide)]
    simp [altCat, List.append_assoc]
  have e4 : replaceAll (cs "\x7b\x7bFONT_SIZE\x7d\x7d") cfg.FONT_SIZE
      (tm0 ++ (title ++ (tmF0 ++ (cs "\x7b\x7bFONT_SIZE\x7d\x7d" ++ (tmF1 ++ (cs "\x7b\x7bLINE_HEIGHT\x7d\x7d" ++ (tmF2 ++ (cs "\x7b\x7bPADDING_X\x7d\x7d" ++ (tmF3 ++ (cs "\x7b\x7bPADDING_Y\x7d\x7d" ++ (tmF4 ++ (cs "\x7b\x7bCODE_FONT_SCALE\x7d\x7d" ++ (tmF5 ++ (cs "\x7b\x7bPAGE_BG\x7d\x7d" ++ (tmF6 ++ (cs "\x7b\x7bCODE_BG\x7d\x7d" ++ (tmF7 ++ (cs "\x7b\x7bMAX_WIDTH\x7d\x7d" ++ (tmF8 ++ (c ++ (tmF9 ++ (body ++ (tmF10))))))))))))))))))))))) =
      tm0 ++ (title ++ (tmF0 ++ (cfg.FONT_SIZE ++ (tmF1 ++ (cs "\x7b\x7bLINE_HEIGHT\x7d\x7d" ++ (tmF2 ++ (cs "\x7b\x7bPADDING_X\x7d\x7d" ++ (tmF3 ++ (cs "\x7b\x7bPADDING_Y\x7d\x7d" ++ (tmF4 ++ (cs "\x7b\x7bCODE_FONT_SCALE\x7d\x7d" ++ (tmF5 ++ (cs "\x7b\x7bPAGE_BG\x7d\x7d" ++ (tmF6 ++ (cs "\x7b\x7bCODE_BG\x7d\x7d" ++ (tmF7 ++ (cs "\x7b\x7bMAX_WIDTH\x7d\x7d" ++ (tmF8 ++ (c ++ (tmF9 ++ (body ++ (tmF10)))))))))))))))))))))) := by
    rw [show (tm0 ++ (title ++ (tmF0 ++ (cs "\x7b\x7bFONT_SIZE\x7d\x7d" ++ (tmF1 ++ (cs "\x7b\x7bLINE_HEIGHT\x7d\x7d" ++ (tmF2 ++ (cs "\x7b\x7bPADDING_X\x7d\x7d" ++ (tmF3 ++ (cs "\x7b\x7bPADDING_Y\x7d\x7d" ++ (tmF4 ++ (cs "\x7b\x7bCODE_FONT_SCALE\x7d\x7d" ++ (tmF5 ++ (cs "\x7b\x7bPAGE_BG\x7d\x7d" ++ (tmF6 ++ (cs "\x7b\x7bCODE_BG\x7d\x7d" ++ (tmF7 ++ (cs "\x7b\x7bMAX_WIDTH\x7d\x7d" ++ (tmF8 ++ (c ++ (tmF9 ++ (body ++ (tmF10))))))))))))))))))))))) = ((tm0) ++ altCat [(title, tmF0)]) ++ ((cs "\x7b\x7bFONT_SIZE\x7d\x7d") ++ (tmF1 ++ (cs "\x7b\x7bLINE_HEIGHT\x7d\x7d" ++ (tmF2 ++ (cs "\x7b\x7bPADDING_X\x7d\x7d" ++ (tmF3 ++ (cs "\x7b\x7bPADDING_Y\x7d\x7d" ++ (tmF4 ++ (cs "\x7b\x7bCODE_FONT_SCALE\x7d\x7d" ++ (tmF5 ++ (cs "\x7b\x7bPAGE_BG\x7d\x7d" ++ (tmF6 ++ (cs "\x7b\x7bCODE_BG\x7d\x7d" ++ (tmF7 ++ (cs "\x7b\x7bMAX_WIDTH\x7d\x7d" ++ (tmF8)))))))))))))) ++ altCat [(c, tmF9), (body, tmF10)])) from by
      simp [altCat, List.append_assoc]]
    rw [replace_step (cs "\x7b\x7bFONT_SIZE\x7d\x7d") cfg.FONT_SIZE (tm0) [(title, tmF0)]
      (tmF1 ++ (cs "\x7b\x7bLINE_HEIGHT\x7d\x7d" ++ (tmF2 ++ (cs "\x7b\x7bPADDING_X\x7d\x7d" ++ (tmF3 ++ (cs "\x7b\x7bPADDING_Y\x7d\x7d" ++ (tmF4 ++ (cs "\x7b\x7bCODE_FONT_SCALE\x7d\x7d" ++ (tmF5 ++ (cs "\x7b\x7bPAGE_BG\x7d\x7d" ++ (tmF6 ++ (cs "\x7b\x7bCODE_BG\x7d\x7d" ++ (tmF7 ++ (cs "\x7b\x7bMAX_WIDTH\x7d\x7d" ++ (tmF8)))))))))))))) ++ altCat [(c, tmF9), (body, tmF10)]) (by decide) (by decide)
      (fun pr hpr => by
        simp only [List.mem_cons, List.not_mem_nil, or_false] at hpr
        rcases hpr with rfl
        exact ⟨occ_false_of_adj _ _ (by decide) ht, (by decide : segOKL (cs "\x7b\x7bFONT_SIZE\x7d\x7d") (tmF0)), (by decide : segOKR (cs "\x7b\x7bFONT_SIZE\x7d\x7d") (tmF0))⟩)
      (occ_false_left (cs "\x7b\x7bFONT_SIZE\x7d\x7d") (tmF1 ++ (cs "\x7b\x7bLINE_HEIGHT\x7d\x7d" ++ (tmF2 ++ (cs "\x7b\x7bPADDING_X\x7d\x7d" ++ (tmF3 ++ (cs "\x7b\x7bPADDING_Y\x7d\x7d" ++ (tmF4 ++ (cs "\x7b\x7bCODE_FONT_SCALE\x7d\x7d" ++ (tmF5 ++ (cs "\x7b\x7bPAGE_BG\x7d\x7d" ++ (tmF6 ++ (cs "\x7b\x7bCODE_BG\x7d\x7d" ++ (tmF7 ++ (cs "\x7b\x7bMAX_WIDTH\x7d\x7d" ++ (tmF8))))))))))))))) (altCat [(c, tmF9), (body, tmF10)]) (by decide)
      (occursIn_altCat_false (cs "\x7b\x7bFONT_SIZE\x7d\x7d") (by decide) [(c, tmF9), (body, tmF10)]
        (fun pr hpr => by
          simp only [List.mem_cons, List.not_mem_nil, or_false] at hpr
          rcases hpr with rfl | rfl
          · exact ⟨occ_false_of_adj _ _ (by decide) hc, (by decide : segOKL (cs "\x7b\x7bFONT_SIZE\x7d\x7d") (tmF9)), (by decide : segOKR (cs "\x7b\x7bFONT_SIZE\x7d\x7d") (tmF9))⟩
          · exact ⟨occ_false_of_adj _ _ (by decide) hb, (by decide : segOKL (cs "\x7b\x7bFONT_SIZE\x7d\x7d") (tmF10)), (by decide : segOKR (cs "\x7b\x7bFONT_SIZE\x7d\x7d") (tmF10))⟩)))]
    simp [altCat, List.append_assoc]
  have e5 : replaceAll (cs "\x7b\x7bLINE_HEIGHT\x7d\x7d") cfg.LINE_HEIGHT
      (tm0 ++ (title ++ (tmF0 ++ (cfg.FONT_SIZE ++ (tmF1 ++ (cs "\x7b\x7bLINE_HEIGHT\x7d\x7d" ++ (tmF2 ++ (cs "\x7b\x7bPADDING_X\x7d\x7d" ++ (tmF3 ++ (cs "\x7b\x7bPADDING_Y\x7d\x7d" ++ (tmF4 ++ (cs "\x7b\x7bCODE_FONT_SCALE\x7d\x7d" ++ (tmF5 ++ (cs "\x7b\x7bPAGE_BG\x7d\x7d" ++ (tmF6 ++ (cs "\x7b\x7bCODE_BG\x7d\x7d" ++ (tmF7 ++ (cs "\x7b\x7bMAX_WIDTH\x7d\x7d" ++ (tmF8 ++ (c ++ (tmF9 ++ (body ++ (tmF10))))))))))))))))))))))) =
      tm0 ++ (title ++ (tmF0 ++ (cfg.FONT_SIZE ++ (tmF1 ++ (cfg.LINE_HEIGHT ++ (tmF2 ++ (cs "\x7b\x7bPADDING_X\x7d\x7d" ++ (tmF3 ++ (cs "\x7b\x7bPADDING_Y\x7d\x7d" ++ (tmF4 ++ (cs "\x7b\x7bCODE_FONT_SCALE\x7d\x7d" ++ (tmF5 ++ (cs "\x7b\x7bPAGE_BG\x7d\x7d" ++ (tmF6 ++ (cs "\x7b\x7bCODE_BG\x7d\x7d" ++ (tmF7 ++ (cs "\x7b\x7bMAX_WIDTH\x7d\x7d" ++ (tmF8 ++ (c ++ (tmF9 ++ (body ++ (tmF10)))))))))))))))))))))) := by
    rw [show (tm0 ++ (title ++ (tmF0 ++ (cfg.FONT_SIZE ++ (tmF1 ++ (cs "\x7b\x7bLINE_HEIGHT\x7d\x7d" ++ (tmF2 ++ (cs "\x7b\x7bPADDING_X\x7d\x7d" ++ (tmF3 ++ (cs "\x7b\x7bPADDING_Y\x7d\x7d" ++ (tmF4 ++ (cs "\x7b\x7bCODE_FONT_SCALE\x7d\x7d" ++ (tmF5 ++ (cs "\x7b\x7bPAGE_BG\x7d\x7d" ++ (tmF6 ++ (cs "\x7b\x7bCODE_BG\x7d\x7d" ++ (tmF7 ++ (cs "\x7b\x7bMAX_WIDTH\x7d\x7d" ++ (tmF8 ++ (c ++ (tmF9 ++ (body ++ (tmF10))))))))))))))))))))))) = ((tm0) ++ altCat [(title, tmF0), (cfg.FONT_SIZE, tmF1)]) ++ ((cs "\x7b\x7bLINE_HEIGHT\x7d\x7d") ++ (tmF2 ++ (cs "\x7b\x7bPADDING_X\x7d\x7d" ++ (tmF3 ++ (cs "\x7b\x7bPADDING_Y\x7d\x7d" ++ (tmF4 ++ (cs "\x7b\x7bCODE_FONT_SCALE\x7d\x7d" ++ (tmF5 ++ (cs "\x7b\x7bPAGE_BG\x7d\x7d" ++ (tmF6 ++ (cs "\x7b\x7bCODE_BG\x7d\x7d" ++ (tmF7 ++ (cs "\x7b\x7bMAX_WIDTH\x7d\x7d" ++ (tmF8)))))))))))) ++ altCat [(c, tmF9), (body, tmF10)])) from by
      simp [altCat, List.append_assoc]]
    rw [replace_step (cs "\x7b\x7bLINE_HEIGHT\x7d\x7d") cfg.LINE_HEIGHT (tm0) [(title, tmF0), (cfg.FONT_SIZE, tmF1)]
      (tmF2 ++ (cs "\x7b\x7bPADDING_X\x7d\x7d" ++ (tmF3 ++ (cs "\x7b\x7bPADDING_Y\x7d\x7d" ++ (tmF4 ++ (cs "\x7b\x7bCODE_FONT_SCALE\x7d\x7d" ++ (tmF5 ++ (cs "\x7b\x7bPAGE_BG\x7d\x7d" ++ (tmF6 ++ (cs "\x7b\x7bCODE_BG\x7d\x7d" ++ (tmF7 ++ (cs "\x7b\x7bMAX_WIDTH\x7d\x7d" ++ (tmF8)))))))))))) ++ altCat [(c, tmF9), (body, tmF10)]) (by decide) (by decide)
      (fun pr hpr => by
        simp only [List.mem_cons, List.not_mem_nil, or_false] at hpr
        rcases hpr with rfl | rfl
        · exact ⟨occ_false_of_adj _ _ (by decide) ht, (by decide : segOKL (cs "\x7b\x7bLINE_HEIGHT\x7d\x7d") (tmF0)), (by decide : segOKR (cs "\x7b\x7bLINE_HEIGHT\x7d\x7d") (tmF0))⟩
        · exact ⟨occ_false_of_adj _ _ (by decide) hf1, (by decide : segOKL (cs "\x7b\x7bLINE_HEIGHT\x7d\x7d") (tmF1)), (by decide : segOKR (cs "\x7b\x7bLINE_HEIGHT\x7d\x7d") (tmF1))⟩)
      (occ_false_left (cs "\x7b\x7bLINE_HEIGHT\x7d\x7d") (tmF2 ++ (cs "\x7b\x7bPADDING_X\x7d\x7d" ++ (tmF3 ++ (cs "\x7b\x7bPADDING_Y\x7d\x7d" ++ (tmF4 ++ (cs "\x7b\x7bCODE_FONT_SCALE\x7d\x7d" ++ (tmF5 ++ (cs "\x7b\x7bPAGE_BG\x7d\x7d" ++ (tmF6 ++ (cs "\x7b\x7bCODE_BG\x7d\x7d" ++ (tmF7 ++ (cs "\x7b\x7bMAX_WIDTH\x7d\x7d" ++ (tmF8))))))))))))) (altCat [(c, tmF9), (body, tmF10)]) (by decide)
      (occursIn_altCat_false (cs "\x7b\x7bLINE_HEIGHT\x7d\x7d") (by decide) [(c, tmF9), (body, tmF10)]
        (fun pr hpr => by
          simp only [List.mem_cons, List.not_mem_nil, or_false] at hpr
          rcases hpr with rfl | rfl
          · exact ⟨occ_false_of_adj _ _ (by decide) hc, (by decide : segOKL (cs "\x7b\x7bLINE_HEIGHT\x7d\x7d") (tmF9)), (by decide : segOKR (cs "\x7b\x7bLINE_HEIGHT\x7d\x7d") (tmF9))⟩
          · exact ⟨occ_false_of_adj _ _ (by decide) hb, (by decide : segOKL (cs "\x7b\x7bLINE_HEIGHT\x7d\x7d") (tmF10)), (by decide : segOKR (cs "\x7b\x7bLINE_HEIGHT\x7d\x7d") (tmF10))⟩)))]
    simp [altCat, List.append_assoc]
  have e6 : replaceAll (cs "\x7b\x7bPADDING_X\x7d\x7d") cfg.PADDING_X
      (tm0 ++ (title ++ (tmF0 ++ (cfg.FONT_SIZE ++ (tmF1 ++ (cfg.LINE_HEIGHT ++ (tmF2 ++ (cs "\x7b\x7bPADDING_X\x7d\x7d" ++ (tmF3 ++ (cs "\x7b\x7bPADDING_Y\x7d\x7d" ++ (tmF4 ++ (cs "\x7b\x7bCODE_FONT_SCALE\x7d\x7d" ++ (tmF5 ++ (cs "\x7b\x7bPAGE_BG\x7d\x7d" ++ (tmF6 ++ (cs "\x7b\x7bCODE_BG\x7d\x7d" ++ (tmF7 ++ (cs "\x7b\x7bMAX_WIDTH\x7d\x7d" ++ (tmF8 ++ (c ++ (tmF9 ++ (body ++ (tmF10))))))))))))))))))))))) =
      tm0 ++ (title ++ (tmF0 ++ (cfg.FONT_SIZE ++ (tmF1 ++ (cfg.LINE_HEIGHT ++ (tmF2 ++ (cfg.PADDING_X ++ (tmF3 ++ (cs "\x7b\x7bPADDING_Y\x7d\x7d" ++ (tmF4 ++ (cs "\x7b\x7bCODE_FONT_SCALE\x7d\x7d" ++ (tmF5 ++ (cs "\x7b\x7bPAGE_BG\x7d\x7d" ++ (tmF6 ++ (cs "\x7b\x7bCODE_BG\x7d\x7d" ++ (tmF7 ++ (cs "\x7b\x7bMAX_WIDTH\x7d\x7d" ++ (tmF8 ++ (c ++ (tmF9 ++ (body ++ (tmF10)))))))))))))))))))))) := by
    rw [show (tm0 ++ (title ++ (tmF0 ++ (cfg.FONT_SIZE ++ (tmF1 ++ (cfg.LINE_HEIGHT ++ (tmF2 ++ (cs "\x7b\x7bPADDING_X\x7d\x7d" ++ (tmF3 ++ (cs "\x7b\x7bPADDING_Y\x7d\x7d" ++ (tmF4 ++ (cs "\x7b\x7bCODE_FONT_SCALE\x7d\x7d" ++ (tmF5 ++ (cs "\x7b\x7bPAGE_BG\x7d\x7d" ++ (tmF6 ++ (cs "\x7b\x7bCODE_BG\x7d\x7d" ++ (tmF7 ++ (cs "\x7b\x7bMAX_WIDTH\x7d\x7d" ++ (tmF8 ++ (c ++ (tmF9 ++ (body ++ (tmF10))))))))))))))))))))))) = ((tm0) ++ altCat [(title, tmF0), (cfg.FONT_SIZE, tmF1), (cfg.LINE_HEIGHT, tmF2)]) ++ ((cs "\x7b\x7bPADDING_X\x7d\x7d") ++ (tmF3 ++ (cs "\x7b\x7bPADDING_Y\x7d\x7d" ++ (tmF4 ++ (cs "\x7b\x7bCODE_FONT_SCALE\x7d\x7d" ++ (tmF5 ++ (cs "\x7b\x7bPAGE_BG\x7d\x7d" ++ (tmF6 ++ (cs "\x7b\x7bCODE_BG\x7d\x7d" ++ (tmF7 ++ (cs "\x7b\x7bMAX_WIDTH\x7d\x7d" ++ (tmF8)))))))))) ++ altCat [(c, tmF9), (body, tmF10)])) from by
      simp [altCat, List.append_assoc]]
    rw [replace_step (cs "\x7b\x7bPADDING_X\x7d\x7d") cfg.PADDING_X (tm0) [(title, tmF0), (cfg.FONT_SIZE, tmF1), (cfg.LINE_HEIGHT, tmF2)]
      (tmF3 ++ (cs "\x7b\x7bPADDING_Y\x7d\x7d" ++ (tmF4 ++ (cs "\x7b\x7bCODE_FONT_SCALE\x7d\x7d" ++ (tmF5 ++ (cs "\x7b\x7bPAGE_BG\x7d\x7d" ++ (tmF6 ++ (cs "\x7b\x7bCODE_BG\x7d\x7d" ++ (tmF7 ++ (cs "\x7b\x7bMAX_WIDTH\x7d\x7d" ++ (tmF8)))))))))) ++ altCat [(c, tmF9), (body, tmF10)]) (by decide) (by decide)
      (fun pr hpr => by
        simp only [List.mem_cons, List.not_mem_nil, or_false] at hpr
        rcases hpr with rfl | rfl | rfl
        · exact ⟨occ_false_of_adj _ _ (by decide) ht, (by decide : segOKL (cs "\x7b\x7bPADDING_X\x7d\x7d") (tmF0)), (by decide : segOKR (cs "\x7b\x7bPADDING_X\x7d\x7d") (tmF0))⟩
        · exact ⟨occ_false_of_adj _ _ (by decide) hf1, (by decide : segOKL (cs "\x7b\x7bPADDING_X\x7d\x7d") (tmF1)), (by decide : segOKR (cs "\x7b\x7bPADDING_X\x7d\x7d") (tmF1))⟩
        · exact ⟨occ_false_of_adj _ _ (by decide) hf2, (by decide : segOKL (cs "\x7b\x7bPADDING_X\x7d\x7d") (tmF2)), (by decide : segOKR (cs "\x7b\x7bPADDING_X\x7d\x7d") (tmF2))⟩)
      (occ_false_left (cs "\x7b\x7bPADDING_X\x7d\x7d") (tmF3 ++ (cs "\x7b\x7bPADDING_Y\x7d\x7d" ++ (tmF4 ++ (cs "\x7b\x7bCODE_FONT_SCALE\x7d\x7d" ++ (tmF5 ++ (cs "\x7b\x7bPAGE_BG\x7d\x7d" ++ (tmF6 ++ (cs "\x7b\x7bCODE_BG\x7d\x7d" ++ (tmF7 ++ (cs "\x7b\x7bMAX_WIDTH\x7d\x7d" ++ (tmF8))))))))))) (altCat [(c, tmF9), (body, tmF10)]) (by decide)
      (occursIn_altCat_false (cs "\x7b\x7bPADDING_X\x7d\x7d") (by decide) [(c, tmF9), (body, tmF10)]
        (fun pr hpr => by
          simp only [List.mem_cons, List.not_mem_nil, or_false] at hpr
          rcases hpr with rfl | rfl
          · exact ⟨occ_false_of_adj _ _ (by decide) hc, (by decide : segOKL (cs "\x7b\x7bPADDING_X\x7d\x7d") (tmF9)), (by decide : segOKR (cs "\x7b\x7bPADDING_X\x7d\x7d") (tmF9))⟩
          · exact ⟨occ_false_of_adj _ _ (by decide) hb, (by decide : segOKL (cs "\x7b\x7bPADDING_X\x7d\x7d") (tmF10)), (by decide : segOKR (cs "\x7b\x7bPADDING_X\x7d\x7d") (tmF10))⟩)))]
    simp [altCat, List.append_assoc]
  have e7 : replaceAll (cs "\x7b\x7bPADDING_Y\x7d\x7d") cfg.PADDING_Y
      (tm0 ++ (title ++ (tmF0 ++ (cfg.FONT_SIZE ++ (tmF1 ++ (cfg.LINE_HEIGHT ++ (tmF2 ++ (cfg.PADDING_X ++ (tmF3 ++ (cs "\x7b\x7bPADDING_Y\x7d\x7d" ++ (tmF4 ++ (cs "\x7b\x7bCODE_FONT_SCALE\x7d\x7d" ++ (tmF5 ++ (cs "\x7b\x7bPAGE_BG\x7d\x7d" ++ (tmF6 ++ (cs "\x7b\x7bCODE_BG\x7d\x7d" ++ (tmF7 ++ (cs "\x7b\x7bMAX_WIDTH\x7d\x7d" ++ (tmF8 ++ (c ++ (tmF9 ++ (body ++ (tmF10))))))))))))))))))))))) =
      tm0 ++ (title ++ (tmF0 ++ (cfg.FONT_SIZE ++ (tmF1 ++ (cfg.LINE_HEIGHT ++ (tmF2 ++ (cfg.PADDING_X ++ (tmF3 ++ (cfg.PADDING_Y ++ (tmF4 ++ (cs "\x7b\x7bCODE_FONT_SCALE\x7d\x7d" ++ (tmF5 ++ (cs "\x7b\x7bPAGE_BG\x7d\x7d" ++ (tmF6 ++ (cs "\x7b\x7bCODE_BG\x7d\x7d" ++ (tmF7 ++ (cs "\x7b\x7bMAX_WIDTH\x7d\x7d" ++ (tmF8 ++ (c ++ (tmF9 ++ (body ++ (tmF10)))))))))))))))))))))) := by
    rw [show (tm0 ++ (title ++ (tmF0 ++ (cfg.FONT_SIZE ++ (tmF1 ++ (cfg.LINE_HEIGHT ++ (tmF2 ++ (cfg.PADDING_X ++ (tmF3 ++ (cs "\x7b\x7bPADDING_Y\x7d\x7d" ++ (tmF4 ++ (cs "\x7b\x7bCODE_FONT_SCALE\x7d\x7d" ++ (tmF5 ++ (cs "\x7b\x7bPAGE_BG\x7d\x7d" ++ (tmF6 ++ (cs "\x7b\x7bCODE_BG\x7d\x7d" ++ (tmF7 ++ (cs "\x7b\x7bMAX_WIDTH\x7d\x7d" ++ (tmF8 ++ (c ++ (tmF9 ++ (body ++ (tmF10))))))))))))))))))))))) = ((tm0) ++ altCat [(title, tmF0), (cfg.FONT_SIZE, tmF1), (cfg.LINE_HEIGHT, tmF2), (cfg.PADDING_X, tmF3)]) ++ ((cs "\x7b\x7bPADDING_Y\x7d\x7d") ++ (tmF4 ++ (cs "\x7b\x7bCODE_FONT_SCALE\x7d\x7d" ++ (tmF5 ++ (cs "\x7b\x7bPAGE_BG\x7d\x7d" ++ (tmF6 ++ (cs "\x7b\x7bCODE_BG\x7d\x7d" ++ (tmF7 ++ (cs "\x7b\x7bMAX_WIDTH\x7d\x7d" ++ (tmF8)))))))) ++ altCat [(c, tmF9), (body, tmF10)])) from by
      simp [altCat, List.append_assoc]]
    rw [replace_step (cs "\x7b\x7bPADDING_Y\x7d\x7d") cfg.PADDING_Y (tm0) [(title, tmF0), (cfg.FONT_SIZE, tmF1), (cfg.LINE_HEIGHT, tmF2), (cfg.PADDING_X, tmF3)]
      (tmF4 ++ (cs "\x7b\x7bCODE_FONT_SCALE\x7d\x7d" ++ (tmF5 ++ (cs "\x7b\x7bPAGE_BG\x7d\x7d" ++ (tmF6 ++ (cs "\x7b\x7bCODE_BG\x7d\x7d" ++ (tmF7 ++ (cs "\x7b\x7bMAX_WIDTH\x7d\x7d" ++ (tmF8)))))))) ++ altCat [(c, tmF9), (body, tmF10)]) (by decide) (by decide)
      (fun pr hpr => by
        simp only [List.mem_cons, List.not_mem_nil, or_false] at hpr
        rcases hpr with rfl | rfl | rfl | rfl
        · exact ⟨occ_false_of_adj _ _ (by decide) ht, (by decide : segOKL (cs "\x7b\x7bPADDING_Y\x7d\x7d") (tmF0)), (by decide : segOKR (cs "\x7b\x7bPADDING_Y\x7d\x7d") (tmF0))⟩
        · exact ⟨occ_false_of_adj _ _ (by decide) hf1, (by decide : segOKL (cs "\x7b\x7bPADDING_Y\x7d\x7d") (tmF1)), (by decide : segOKR (cs "\x7b\x7bPADDING_Y\x7d\x7d") (tmF1))⟩
        · exact ⟨occ_false_of_adj _ _ (by decide) hf2, (by decide : segOKL (cs "\x7b\x7bPADDING_Y\x7d\x7d") (tmF2)), (by decide : segOKR (cs "\x7b\x7bPADDING_Y\x7d\x7d") (tmF2))⟩
        · exact ⟨occ_false_of_adj _ _ (by decide) hf3, (by decide : segOKL (cs "\x7b\x7bPADDING_Y\x7d\x7d") (tmF3)), (by decide : segOKR (cs "\x7b\x7bPADDING_Y\x7d\x7d") (tmF3))⟩)
      (occ_false_left (cs "\x7b\x7bPADDING_Y\x7d\x7d") (tmF4 ++ (cs "\x7b\x7bCODE_FONT_SCALE\x7d\x7d" ++ (tmF5 ++ (cs "\x7b\x7bPAGE_BG\x7d\x7d" ++ (tmF6 ++ (cs "\x7b\x7bCODE_BG\x7d\x7d" ++ (tmF7 ++ (cs "\x7b\x7bMAX_WIDTH\x7d\x7d" ++ (tmF8))))))))) (altCat [(c, tmF9), (body, tmF10)]) (by decide)
      (occursIn_altCat_false (cs "\x7b\x7bPADDING_Y\x7d\x7d") (by decide) [(c, tmF9), (body, tmF10)]
        (fun pr hpr => by
          simp only [List.mem_cons, List.not_mem_nil, or_false] at hpr
          rcases hpr with rfl | rfl
          · exact ⟨occ_false_of_adj _ _ (by decide) hc, (by decide : segOKL (cs "\x7b\x7bPADDING_Y\x7d\x7d") (tmF9)), (by decide : segOKR (cs "\x7b\x7bPADDING_Y\x7d\x7d") (tmF9))⟩
          · exact ⟨occ_false_of_adj _ _ (by decide) hb, (by decide : segOKL (cs "\x7b\x7bPADDING_Y\x7d\x7d") (tmF10)), (by decide : segOKR (cs "\x7b\x7bPADDING_Y\x7d\x7d") (tmF10))⟩)))]
    simp [altCat, List.append_assoc]
  have e8 : replaceAll (cs "\x7b\x7bCODE_FONT_SCALE\x7d\x7d") cfg.CODE_FONT_SCALE
      (tm0 ++ (title ++ (tmF0 ++ (cfg.FONT_SIZE ++ (tmF1 ++ (cfg.LINE_HEIGHT ++ (tmF2 ++ (cfg.PADDING_X ++ (tmF3 ++ (cfg.PADDING_Y ++ (tmF4 ++ (cs "\x7b\x7bCODE_FONT_SCALE\x7d\x7d" ++ (tmF5 ++ (cs "\x7b\x7bPAGE_BG\x7d\x7d" ++ (tmF6 ++ (cs "\x7b\x7bCODE_BG\x7d\x7d" ++ (tmF7 ++ (cs "\x7b\x7bMAX_WIDTH\x7d\x7d" ++ (tmF8 ++ (c ++ (tmF9 ++ (body ++ (tmF10))))))))))))))))))))))) =
      tm0 ++ (title ++ (tmF0 ++ (cfg.FONT_SIZE ++ (tmF1 ++ (cfg.LINE_HEIGHT ++ (tmF2 ++ (cfg.PADDING_X ++ (tmF3 ++ (cfg.PADDING_Y ++ (tmF4 ++ (cfg.CODE_FONT_SCALE ++ (tmF5 ++ (cs "\x7b\x7bPAGE_BG\x7d\x7d" ++ (tmF6 ++ (cs "\x7b\x7bCODE_BG\x7d\x7d" ++ (tmF7 ++ (cs "\x7b\x7bMAX_WIDTH\x7d\x7d" ++ (tmF8 ++ (c ++ (tmF9 ++ (body ++ (tmF10)))))))))))))))))))))) := by
    rw [show (tm0 ++ (title ++ (tmF0 ++ (cfg.FONT_SIZE ++ (tmF1 ++ (cfg.LINE_HEIGHT ++ (tmF2 ++ (cfg.PADDING_X ++ (tmF3 ++ (cfg.PADDING_Y ++ (tmF4 ++ (cs "\x7b\x7bCODE_FONT_SCALE\x7d\x7d" ++ (tmF5 ++ (cs "\x7b\x7bPAGE_BG\x7d\x7d" ++ (tmF6 ++ (cs "\x7b\x7bCODE_BG\x7d\x7d" ++ (tmF7 ++ (cs "\x7b\x7bMAX_WIDTH\x7d\x7d" ++ (tmF8 ++ (c ++ (tmF9 ++ (body ++ (tmF10))))))))))))))))))))))) = ((tm0) ++ altCat [(title, tmF0), (cfg.FONT_SIZE, tmF1), (cfg.LINE_HEIGHT, tmF2), (cfg.PADDING_X, tmF3), (cfg.PADDING_Y, tmF4)]) ++ ((cs "\x7b\x7bCODE_FONT_SCALE\x7d\x7d") ++ (tmF5 ++ (cs "\x7b\x7bPAGE_BG\x7d\x7d" ++ (tmF6 ++ (cs "\x7b\x7bCODE_BG\x7d\x7d" ++ (tmF7 ++ (cs "\x7b\x7bMAX_WIDTH\x7d\x7d" ++ (tmF8)))))) ++ altCat [(c, tmF9), (body, tmF10)])) from by
      simp [altCat, List.append_assoc]]
    rw [replace_step (cs "\x7b\x7bCODE_FONT_SCALE\x7d\x7d") cfg.CODE_FONT_SCALE (tm0) [(title, tmF0), (cfg.FONT_SIZE, tmF1), (cfg.LINE_HEIGHT, tmF2), (cfg.PADDING_X, tmF3), (cfg.PADDING_Y, tmF4)]
      (tmF5 ++ (cs "\x7b\x7bPAGE_BG\x7d\x7d" ++ (tmF6 ++ (cs "\x7b\x7bCODE_BG\x7d\x7d" ++ (tmF7 ++ (cs "\x7b\x7bMAX_WIDTH\x7d\x7d" ++ (tmF8)))))) ++ altCat [(c, tmF9), (body, tmF10)]) (by decide) (by decide)
      (fun pr hpr => by
        simp only [List.mem_cons, List.not_mem_nil, or_false] at hpr
        rcases hpr with rfl | rfl | rfl | rfl | rfl
        · exact ⟨occ_false_of_adj _ _ (by decide) ht, (by decide : segOKL (cs "\x7b\x7bCODE_FONT_SCALE\x7d\x7d") (tmF0)), (by decide : segOKR (cs "\x7b\x7bCODE_FONT_SCALE\x7d\x7d") (tmF0))⟩
        · exact ⟨occ_false_of_adj _ _ (by decide) hf1, (by decide : segOKL (cs "\x7b\x7bCODE_FONT_SCALE\x7d\x7d") (tmF1)), (by decide : segOKR (cs "\x7b\x7bCODE_FONT_SCALE\x7d\x7d") (tmF1))⟩
        · exact ⟨occ_false_of_adj _ _ (by decide) hf2, (by decide : segOKL (cs "\x7b\x7bCODE_FONT_SCALE\x7d\x7d") (tmF2)), (by decide : segOKR (cs "\x7b\x7bCODE_FONT_SCALE\x7d\x7d") (tmF2))⟩
        · exact ⟨occ_false_of_adj _ _ (by decide) hf3, (by decide : segOKL (cs "\x7b\x7bCODE_FONT_SCALE\x7d\x7d") (tmF3)), (by decide : segOKR (cs "\x7b\x7bCODE_FONT_SCALE\x7d\x7d") (tmF3))⟩
        · exact ⟨occ_false_of_adj _ _ (by decide) hf4, (by decide : segOKL (cs "\x7b\x7bCODE_FONT_SCALE\x7d\x7d") (tmF4)), (by decide : segOKR (cs "\x7b\x7bCODE_FONT_SCALE\x7d\x7d") (tmF4))⟩)
      (occ_false_left (cs "\x7b\x7bCODE_FONT_SCALE\x7d\x7d") (tmF5 ++ (cs "\x7b\x7bPAGE_BG\x7d\x7d" ++ (tmF6 ++ (cs "\x7b\x7bCODE_BG\x7d\x7d" ++ (tmF7 ++ (cs "\x7b\x7bMAX_WIDTH\x7d\x7d" ++ (tmF8))))))) (altCat [(c, tmF9), (body, tmF10)]) (by decide)
      (occursIn_altCat_false (cs "\x7b\x7bCODE_FONT_SCALE\x7d\x7d") (by decide) [(c, tmF9), (body, tmF10)]
        (fun pr hpr => by
          simp only [List.mem_cons, List.not_mem_nil, or_false] at hpr
          rcases hpr with rfl | rfl
          · exact ⟨occ_false_of_adj _ _ (by decide) hc, (by decide : segOKL (cs "\x7b\x7bCODE_FONT_SCALE\x7d\x7d") (tmF9)), (by decide : segOKR (cs "\x7b\x7bCODE_FONT_SCALE\x7d\x7d") (tmF9))⟩
          · exact ⟨occ_false_of_adj _ _ (by decide) hb, (by decide : segOKL (cs "\x7b\x7bCODE_FONT_SCALE\x7d\x7d") (tmF10)), (by decide : segOKR (cs "\x7b\x7bCODE_FONT_SCALE\x7d\x7d") (tmF10))⟩)))]
    simp [altCat, List.append_assoc]
  have e9 : replaceAll (cs "\x7b\x7bPAGE_BG\x7d\x7d") cfg.PAGE_BG
      (tm0 ++ (title ++ (tmF0 ++ (cfg.FONT_SIZE ++ (tmF1 ++ (cfg.LINE_HEIGHT ++ (tmF2 ++ (cfg.PADDING_X ++ (tmF3 ++ (cfg.PADDING_Y ++ (tmF4 ++ (cfg.CODE_FONT_SCALE ++ (tmF5 ++ (cs "\x7b\x7bPAGE_BG\x7d\x7d" ++ (tmF6 ++ (cs "\x7b\x7bCODE_BG\x7d\x7d" ++ (tmF7 ++ (cs "\x7b\x7bMAX_WIDTH\x7d\x7d" ++ (tmF8 ++ (c ++ (tmF9 ++ (body ++ (tmF10))))))))))))))))))))))) =
      tm0 ++ (title ++ (tmF0 ++ (cfg.FONT_SIZE ++ (tmF1 ++ (cfg.LINE_HEIGHT ++ (tmF2 ++ (cfg.PADDING_X ++ (tmF3 ++ (cfg.PADDING_Y ++ (tmF4 ++ (cfg.CODE_FONT_SCALE ++ (tmF5 ++ (cfg.PAGE_BG ++ (tmF6 ++ (cs "\x7b\x7bCODE_BG\x7d\x7d" ++ (tmF7 ++ (cs "\x7b\x7bMAX_WIDTH\x7d\x7d" ++ (tmF8 ++ (c ++ (tmF9 ++ (body ++ (tmF10)))))))))))))))))))))) := by
    rw [show (tm0 ++ (title ++ (tmF0 ++ (cfg.FONT_SIZE ++ (tmF1 ++ (cfg.LINE_HEIGHT ++ (tmF2 ++ (cfg.PADDING_X ++ (tmF3 ++ (cfg.PADDING_Y ++ (tmF4 ++ (cfg.CODE_FONT_SCALE ++ (tmF5 ++ (cs "\x7b\x7bPAGE_BG\x7d\x7d" ++ (tmF6 ++ (cs "\x7b\x7bCODE_BG\x7d\x7d" ++ (tmF7 ++ (cs "\x7b\x7bMAX_WIDTH\x7d\x7d" ++ (tmF8 ++ (c ++ (tmF9 ++ (body ++ (tmF10))))))))))))))))))))))) = ((tm0) ++ altCat [(title, tmF0), (cfg.FONT_SIZE, tmF1), (cfg.LINE_HEIGHT, tmF2), (cfg.PADDING_X, tmF3), (cfg.PADDING_Y, tmF4), (cfg.CODE_FONT_SCALE, tmF5)]) ++ ((cs "\x7b\x7bPAGE_BG\x7d\x7d") ++ (tmF6 ++ (cs "\x7b\x7bCODE_BG\x7d\x7d" ++ (tmF7 ++ (cs "\x7b\x7bMAX_WIDTH\x7d\x7d" ++ (tmF8)))) ++ altCat [(c, tmF9), (body, tmF10)])) from by
      simp [altCat, List.append_assoc]]
    rw [replace_step (cs "\x7b\x7bPAGE_BG\x7d\x7d") cfg.PAGE_BG (tm0) [(title, tmF0), (cfg.FONT_SIZE, tmF1), (cfg.LINE_HEIGHT, tmF2), (cfg.PADDING_X, tmF3), (cfg.PADDING_Y, tmF4), (cfg.CODE_FONT_SCALE, tmF5)]
      (tmF6 ++ (cs "\x7b\x7bCODE_BG\x7d\x7d" ++ (tmF7 ++ (cs "\x7b\x7bMAX_WIDTH\x7d\x7d" ++ (tmF8)))) ++ altCat [(c, tmF9), (body, tmF10)]) (by decide) (by decide)
      (fun pr hpr => by
        simp only [List.mem_cons, List.not_mem_nil, or_false] at hpr
        rcases hpr with rfl | rfl | rfl | rfl | rfl | rfl
        · exact ⟨occ_false_of_adj _ _ (by decide) ht, (by decide : segOKL (cs "\x7b\x7bPAGE_BG\x7d\x7d") (tmF0)), (by decide : segOKR (cs "\x7b\x7bPAGE_BG\x7d\x7d") (tmF0))⟩
        · exact ⟨occ_false_of_adj _ _ (by decide) hf1, (by decide : segOKL (cs "\x7b\x7bPAGE_BG\x7d\x7d") (tmF1)), (by decide : segOKR (cs "\x7b\x7bPAGE_BG\x7d\x7d") (tmF1))⟩
        · exact ⟨occ_false_of_adj _ _ (by decide) hf2, (by decide : segOKL (cs "\x7b\x7bPAGE_BG\x7d\x7d") (tmF2)), (by decide : segOKR (cs "\x7b\x7bPAGE_BG\x7d\x7d") (tmF2))⟩
        · exact ⟨occ_false_of_adj _ _ (by decide) hf3, (by decide : segOKL (cs "\x7b\x7bPAGE_BG\x7d\x7d") (tmF3)), (by decide : segOKR (cs "\x7b\x7bPAGE_BG\x7d\x7d") (tmF3))⟩
        · exact ⟨occ_false_of_adj _ _ (by decide) hf4, (by decide : segOKL (cs "\x7b\x7bPAGE_BG\x7d\x7d") (tmF4)), (by decide : segOKR (cs "\x7b\x7bPAGE_BG\x7d\x7d") (tmF4))⟩
        · exact ⟨occ_false_of_adj _ _ (by decide) hf5, (by decide : segOKL (cs "\x7b\x7bPAGE_BG\x7d\x7d") (tmF5)), (by decide : segOKR (cs "\x7b\x7bPAGE_BG\x7d\x7d") (tmF5))⟩)
      (occ_false_left (cs "\x7b\x7bPAGE_BG\x7d\x7d") (tmF6 ++ (cs "\x7b\x7bCODE_BG\x7d\x7d" ++ (tmF7 ++ (cs "\x7b\x7bMAX_WIDTH\x7d\x7d" ++ (tmF8))))) (altCat [(c, tmF9), (body, tmF10)]) (by decide)
      (occursIn_altCat_false (cs "\x7b\x7bPAGE_BG\x7d\x7d") (by decide) [(c, tmF9), (body, tmF10)]
        (fun pr hpr => by
          simp only [List.mem_cons, List.not_mem_nil, or_false] at hpr
          rcases hpr with rfl | rfl
          · exact ⟨occ_false_of_adj _ _ (by decide) hc, (by decide : segOKL (cs "\x7b\x7bPAGE_BG\x7d\x7d") (tmF9)), (by decide : segOKR (cs "\x7b\x7bPAGE_BG\x7d\x7d") (tmF9))⟩
          · exact ⟨occ_false_of_adj _ _ (by decide) hb, (by decide : segOKL (cs "\x7b\x7bPAGE_BG\x7d\x7d") (tmF10)), (by decide : segOKR (cs "\x7b\x7bPAGE_BG\x7d\x7d") (tmF10))⟩)))]
    simp [altCat, List.append_assoc]
  have e10 : replaceAll (cs "\x7b\x7bCODE_BG\x7d\x7d") cfg.CODE_BG
      (tm0 ++ (title ++ (tmF0 ++ (cfg.FONT_SIZE ++ (tmF1 ++ (cfg.LINE_HEIGHT ++ (tmF2 ++ (cfg.PADDING_X ++ (tmF3 ++ (cfg.PADDING_Y ++ (tmF4 ++ (cfg.CODE_FONT_SCALE ++ (tmF5 ++ (cfg.PAGE_BG ++ (tmF6 ++ (cs "\x7b\x7bCODE_BG\x7d\x7d" ++ (tmF7 ++ (cs "\x7b\x7bMAX_WIDTH\x7d\x7d" ++ (tmF8 ++ (c ++ (tmF9 ++ (body ++ (tmF10))))))))))))))))))))))) =
      tm0 ++ (title ++ (tmF0 ++ (cfg.FONT_SIZE ++ (tmF1 ++ (cfg.LINE_HEIGHT ++ (tmF2 ++ (cfg.PADDING_X ++ (tmF3 ++ (cfg.PADDING_Y ++ (tmF4 ++ (cfg.CODE_FONT_SCALE ++ (tmF5 ++ (cfg.PAGE_BG ++ (tmF6 ++ (cfg.CODE_BG ++ (tmF7 ++ (cs "\x7b\x7bMAX_WIDTH\x7d\x7d" ++ (tmF8 ++ (c ++ (tmF9 ++ (body ++ (tmF10)))))))))))))))))))))) := by
    rw [show (tm0 ++ (title ++ (tmF0 ++ (cfg.FONT_SIZE ++ (tmF1 ++ (cfg.LINE_HEIGHT ++ (tmF2 ++ (cfg.PADDING_X ++ (tmF3 ++ (cfg.PADDING_Y ++ (tmF4 ++ (cfg.CODE_FONT_SCALE ++ (tmF5 ++ (cfg.PAGE_BG ++ (tmF6 ++ (cs "\x7b\x7bCODE_BG\x7d\x7d" ++ (tmF7 ++ (cs "\x7b\x7bMAX_WIDTH\x7d\x7d" ++ (tmF8 ++ (c ++ (tmF9 ++ (body ++ (tmF10))))))))))))))))))))))) = ((tm0) ++ altCat [(title, tmF0), (cfg.FONT_SIZE, tmF1), (cfg.LINE_HEIGHT, tmF2), (cfg.PADDING_X, tmF3), (cfg.PADDING_Y, tmF4), (cfg.CODE_FONT_SCALE, tmF5), (cfg.PAGE_BG, tmF6)]) ++ ((cs "\x7b\x7bCODE_BG\x7d\x7d") ++ (tmF7 ++ (cs "\x7b\x7bMAX_WIDTH\x7d\x7d" ++ (tmF8)) ++ altCat [(c, tmF9), (body, tmF10)])) from by
      simp [altCat, List.append_assoc]]
    rw [replace_step (cs "\x7b\x7bCODE_BG\x7d\x7d") cfg.CODE_BG (tm0) [(title, tmF0), (cfg.FONT_SIZE, tmF1), (cfg.LINE_HEIGHT, tmF2), (cfg.PADDING_X, tmF3), (cfg.PADDING_Y, tmF4), (cfg.CODE_FONT_SCALE, tmF5), (cfg.PAGE_BG, tmF6)]
      (tmF7 ++ (cs "\x7b\x7bMAX_WIDTH\x7d\x7d" ++ (tmF8)) ++ altCat [(c, tmF9), (body, tmF10)]) (by decide) (by decide)
      (fun pr hpr => by
        simp only [List.mem_cons, List.not_mem_nil, or_false] at hpr
        rcases hpr with rfl | rfl | rfl | rfl | rfl | rfl | rfl
        · exact ⟨occ_false_of_adj _ _ (by decide) ht, (by decide : segOKL (cs "\x7b\x7bCODE_BG\x7d\x7d") (tmF0)), (by decide : segOKR (cs "\x7b\x7bCODE_BG\x7d\x7d") (tmF0))⟩
        · exact ⟨occ_false_of_adj _ _ (by decide) hf1, (by decide : segOKL (cs "\x7b\x7bCODE_BG\x7d\x7d") (tmF1)), (by decide : segOKR (cs "\x7b\x7bCODE_BG\x7d\x7d") (tmF1))⟩
        · exact ⟨occ_false_of_adj _ _ (by decide) hf2, (by decide : segOKL (cs "\x7b\x7bCODE_BG\x7d\x7d") (tmF2)), (by decide : segOKR (cs "\x7b\x7bCODE_BG\x7d\x7d") (tmF2))⟩
        · exact ⟨occ_false_of_adj _ _ (by decide) hf3, (by decide : segOKL (cs "\x7b\x7bCODE_BG\x7d\x7d") (tmF3)), (by decide : segOKR (cs "\x7b\x7bCODE_BG\x7d\x7d") (tmF3))⟩
        · exact ⟨occ_false_of_adj _ _ (by decide) hf4, (by decide : segOKL (cs "\x7b\x7bCODE_BG\x7d\x7d") (tmF4)), (by decide : segOKR (cs "\x7b\x7bCODE_BG\x7d\x7d") (tmF4))⟩
        · exact ⟨occ_false_of_adj _ _ (by decide) hf5, (by decide : segOKL (cs "\x7b\x7bCODE_BG\x7d\x7d") (tmF5)), (by decide : segOKR (cs "\x7b\x7bCODE_BG\x7d\x7d") (tmF5))⟩
        · exact ⟨occ_false_of_adj _ _ (by decide) hf6, (by decide : segOKL (cs "\x7b\x7bCODE_BG\x7d\x7d") (tmF6)), (by decide : segOKR (cs "\x7b\x7bCODE_BG\x7d\x7d") (tmF6))⟩)
      (occ_false_left (cs "\x7b\x7bCODE_BG\x7d\x7d") (tmF7 ++ (cs "\x7b\x7bMAX_WIDTH\x7d\x7d" ++ (tmF8))) (altCat [(c, tmF9), (body, tmF10)]) (by decide)
      (occursIn_altCat_false (cs "\x7b\x7bCODE_BG\x7d\x7d") (by decide) [(c, tmF9), (body, tmF10)]
        (fun pr hpr => by
          simp only [List.mem_cons, List.not_mem_nil, or_false] at hpr
          rcases hpr with rfl | rfl
          · exact ⟨occ_false_of_adj _ _ (by decide) hc, (by decide : segOKL (cs "\x7b\x7bCODE_BG\x7d\x7d") (tmF9)), (by decide : segOKR (cs "\x7b\x7bCODE_BG\x7d\x7d") (tmF9))⟩
          · exact ⟨occ_false_of_adj _ _ (by decide) hb, (by decide : segOKL (cs "\x7b\x7bCODE_BG\x7d\x7d") (tmF10)), (by decide : segOKR (cs "\x7b\x7bCODE_BG\x7d\x7d") (tmF10))⟩)))]
    simp [altCat, List.append_assoc]
  have e11 : replaceAll (cs "\x7b\x7bMAX_WIDTH\x7d\x7d") cfg.MAX_WIDTH
      (tm0 ++ (title ++ (tmF0 ++ (cfg.FONT_SIZE ++ (tmF1 ++ (cfg.LINE_HEIGHT ++ (tmF2 ++ (cfg.PADDING_X ++ (tmF3 ++ (cfg.PADDING_Y ++ (tmF4 ++ (cfg.CODE_FONT_SCALE ++ (tmF5 ++ (cfg.PAGE_BG ++ (tmF6 ++ (cfg.CODE_BG ++ (tmF7 ++ (cs "\x7b\x7bMAX_WIDTH\x7d\x7d" ++ (tmF8 ++ (c ++ (tmF9 ++ (body ++ (tmF10))))))))))))))))))))))) =
      tm0 ++ (title ++ (tmF0 ++ (cfg.FONT_SIZE ++ (tmF1 ++ (cfg.LINE_HEIGHT ++ (tmF2 ++ (cfg.PADDING_X ++ (tmF3 ++ (cfg.PADDING_Y ++ (tmF4 ++ (cfg.CODE_FONT_SCALE ++ (tmF5 ++ (cfg.PAGE_BG ++ (tmF6 ++ (cfg.CODE_BG ++ (tmF7 ++ (cfg.MAX_WIDTH ++ (tmF8 ++ (c ++ (tmF9 ++ (body ++ (tmF10)))))))))))))))))))))) := by
    rw [show (tm0 ++ (title ++ (tmF0 ++ (cfg.FONT_SIZE ++ (tmF1 ++ (cfg.LINE_HEIGHT ++ (tmF2 ++ (cfg.PADDING_X ++ (tmF3 ++ (cfg.PADDING_Y ++ (tmF4 ++ (cfg.CODE_FONT_SCALE ++ (tmF5 ++ (cfg.PAGE_BG ++ (tmF6 ++ (cfg.CODE_BG ++ (tmF7 ++ (cs "\x7b\x7bMAX_WIDTH\x7d\x7d" ++ (tmF8 ++ (c ++ (tmF9 ++ (body ++ (tmF10))))))))))))))))))))))) = ((tm0) ++ altCat [(title, tmF0), (cfg.FONT_SIZE, tmF1), (cfg.LINE_HEIGHT, tmF2), (cfg.PADDING_X, tmF3), (cfg.PADDING_Y, tmF4), (cfg.CODE_FONT_SCALE, tmF5), (cfg.PAGE_BG, tmF6), (cfg.CODE_BG, tmF7)]) ++ ((cs "\x7b\x7bMAX_WIDTH\x7d\x7d") ++ (tmF8 ++ altCat [(c, tmF9), (body, tmF10)])) from by
      simp [altCat, List.append_assoc]]
    rw [replace_step (cs "\x7b\x7bMAX_WIDTH\x7d\x7d") cfg.MAX_WIDTH (tm0) [(title, tmF0), (cfg.FONT_SIZE, tmF1), (cfg.LINE_HEIGHT, tmF2), (cfg.PADDING_X, tmF3), (cfg.PADDING_Y, tmF4), (cfg.CODE_FONT_SCALE, tmF5), (cfg.PAGE_BG, tmF6), (cfg.CODE_BG, tmF7)]
      (tmF8 ++ altCat [(c, tmF9), (body, tmF10)]) (by decide) (by decide)
      (fun pr hpr => by
        simp only [List.mem_cons, List.not_mem_nil, or_false] at hpr
        rcases hpr with rfl | rfl | rfl | rfl | rfl | rfl | rfl | rfl
        · exact ⟨occ_false_of_adj _ _ (by decide) ht, (by decide : segOKL (cs "\x7b\x7bMAX_WIDTH\x7d\x7d") (tmF0)), (by decide : segOKR (cs "\x7b\x7bMAX_WIDTH\x7d\x7d") (tmF0))⟩
        · exact ⟨occ_false_of_adj _ _ (by decide) hf1, (by decide : segOKL (cs "\x7b\x7bMAX_WIDTH\x7d\x7d") (tmF1)), (by decide : segOKR (cs "\x7b\x7bMAX_WIDTH\x7d\x7d") (tmF1))⟩
        · exact ⟨occ_false_of_adj _ _ (by decide) hf2, (by decide : segOKL (cs "\x7b\x7bMAX_WIDTH\x7d\x7d") (tmF2)), (by decide : segOKR (cs "\x7b\x7bMAX_WIDTH\x7d\x7d") (tmF2))⟩
        · exact ⟨occ_false_of_adj _ _ (by decide) hf3, (by decide : segOKL (cs "\x7b\x7bMAX_WIDTH\x7d\x7d") (tmF3)), (by decide : segOKR (cs "\x7b\x7bMAX_WIDTH\x7d\x7d") (tmF3))⟩
        · exact ⟨occ_false_of_adj _ _ (by decide) hf4, (by decide : segOKL (cs "\x7b\x7bMAX_WIDTH\x7d\x7d") (tmF4)), (by decide : segOKR (cs "\x7b\x7bMAX_WIDTH\x7d\x7d") (tmF4))⟩
        · exact ⟨occ_false_of_adj _ _ (by decide) hf5, (by decide : segOKL (cs "\x7b\x7bMAX_WIDTH\x7d\x7d") (tmF5)), (by decide : segOKR (cs "\x7b\x7bMAX_WIDTH\x7d\x7d") (tmF5))⟩
        · exact ⟨occ_false_of_adj _ _ (by decide) hf6, (by decide : segOKL (cs "\x7b\x7bMAX_WIDTH\x7d\x7d") (tmF6)), (by decide : segOKR (cs "\x7b\x7bMAX_WIDTH\x7d\x7d") (tmF6))⟩
        · exact ⟨occ_false_of_adj _ _ (by decide) hf7, (by decide : segOKL (cs "\x7b\x7bMAX_WIDTH\x7d\x7d") (tmF7)), (by decide : segOKR (cs "\x7b\x7bMAX_WIDTH\x7d\x7d") (tmF7))⟩)
      (occ_false_left (cs "\x7b\x7bMAX_WIDTH\x7d\x7d") (tmF8) (altCat [(c, tmF9), (body, tmF10)]) (by decide)
      (occursIn_altCat_false (cs "\x7b\x7bMAX_WIDTH\x7d\x7d") (by decide) [(c, tmF9), (body, tmF10)]
        (fun pr hpr => by
          simp only [List.mem_cons, List.not_mem_nil, or_false] at hpr
          rcases hpr with rfl | rfl
          · exact ⟨occ_false_of_adj _ _ (by decide) hc, (by decide : segOKL (cs "\x7b\x7bMAX_WIDTH\x7d\x7d") (tmF9)), (by decide : segOKR (cs "\x7b\x7bMAX_WIDTH\x7d\x7d") (tmF9))⟩
          · exact ⟨occ_false_of_adj _ _ (by decide) hb, (by decide : segOKL (cs "\x7b\x7bMAX_WIDTH\x7d\x7d") (tmF10)), (by decide : segOKR (cs "\x7b\x7bMAX_WIDTH\x7d\x7d") (tmF10))⟩)))]
    simp [altCat, List.append_assoc]
  rw [e1, e2, e3, e4, e5, e6, e7, e8, e9, e10, e11]

/-- C8: in the document assembled over the modelled template, the
heading-numbering rule set is present if and only if the effective flag — the
front-matter `auto_number` when set (boolean `false` or the string `"false"`
negative, any other set value truthy), else the configuration default — is
true.  The hypotheses are on the substituted document values only: the title,
the rendered body and the configuration strings contain no doubled brace (so
they do not spell a template placeholder) and do not themselves quote the full
rule set. -/
theorem c8_heading_numbering_css (cfg : RenderConfig) (title body : List Char) (fm : JsVal)
    (hvals : ∀ v ∈ [title, body, cfg.FONT_SIZE, cfg.LINE_HEIGHT, cfg.PADDING_X,
      cfg.PADDING_Y, cfg.CODE_FONT_SCALE, cfg.PAGE_BG, cfg.CODE_BG, cfg.MAX_WIDTH],
      hasAdj lbrace v = false ∧ occursIn (buildHeadingNumberCSS true) v = false) :
    occursIn (buildHeadingNumberCSS true)
      (buildHtml tmplModel cfg title body (autoNumberOf fm)) =
      (match autoNumberOf fm with | some b => b | none => cfg.AUTO_NUMBER) := by
  have ht := hvals title (by simp)
  have hb := hvals body (by simp)
  have hf1 := hvals cfg.FONT_SIZE (by simp)
  have hf2 := hvals cfg.LINE_HEIGHT (by simp)
  have hf3 := hvals cfg.PADDING_X (by simp)
  have hf4 := hvals cfg.PADDING_Y (by simp)
  have hf5 := hvals cfg.CODE_FONT_SCALE (by simp)
  have hf6 := hvals cfg.PAGE_BG (by simp)
  have hf7 := hvals cfg.CODE_BG (by simp)
  have hf8 := hvals cfg.MAX_WIDTH (by simp)
  simp only [buildHtml]
  generalize (match autoNumberOf fm with | some b => b | none => cfg.AUTO_NUMBER) = e
  rw [buildHtml_model_chain cfg title body (buildHeadingNumberCSS e) ht.1 hb.1 (hasAdj_css e)
    hf1.1 hf2.1 hf3.1 hf4.1 hf5.1 hf6.1 hf7.1 hf8.1]
  cases e with
  | true =>
    rw [show tm0 ++ (title ++ (tmF0 ++ (cfg.FONT_SIZE ++ (tmF1 ++ (cfg.LINE_HEIGHT ++ (tmF2 ++ (cfg.PADDING_X ++ (tmF3 ++ (cfg.PADDING_Y ++ (tmF4 ++ (cfg.CODE_FONT_SCALE ++ (tmF5 ++ (cfg.PAGE_BG ++ (tmF6 ++ (cfg.CODE_BG ++ (tmF7 ++ (cfg.MAX_WIDTH ++ (tmF8 ++ (buildHeadingNumberCSS true ++ (tmF9 ++ (body ++ (tmF10)))))))))))))))))))))) =
        (tm0 ++ (title ++ (tmF0 ++ (cfg.FONT_SIZE ++ (tmF1 ++ (cfg.LINE_HEIGHT ++ (tmF2 ++ (cfg.PADDING_X ++ (tmF3 ++ (cfg.PADDING_Y ++ (tmF4 ++ (cfg.CODE_FONT_SCALE ++ (tmF5 ++ (cfg.PAGE_BG ++ (tmF6 ++ (cfg.CODE_BG ++ (tmF7 ++ (cfg.MAX_WIDTH ++ (tmF8))))))))))))))))))) ++
        (buildHeadingNumberCSS true ++ (tmF9 ++ (body ++ (tmF10)))) from by
      simp [List.append_assoc]]
    exact occursIn_sandwich (buildHeadingNumberCSS true) _ _
  | false =>
    rw [show buildHeadingNumberCSS false = [] from rfl]
    rw [show tm0 ++ (title ++ (tmF0 ++ (cfg.FONT_SIZE ++ (tmF1 ++ (cfg.LINE_HEIGHT ++ (tmF2 ++ (cfg.PADDING_X ++ (tmF3 ++ (cfg.PADDING_Y ++ (tmF4 ++ (cfg.CODE_FONT_SCALE ++ (tmF5 ++ (cfg.PAGE_BG ++ (tmF6 ++ (cfg.CODE_BG ++ (tmF7 ++ (cfg.MAX_WIDTH ++ (tmF8 ++ ([] ++ (tmF9 ++ (body ++ (tmF10)))))))))))))))))))))) =
        tm0 ++ altCat [(title, tmF0), (cfg.FONT_SIZE, tmF1), (cfg.LINE_HEIGHT, tmF2), (cfg.PADDING_X, tmF3), (cfg.PADDING_Y, tmF4), (cfg.CODE_FONT_SCALE, tmF5), (cfg.PAGE_BG, tmF6), (cfg.CODE_BG, tmF7), (cfg.MAX_WIDTH, tmF8), ([], tmF9), (body, tmF10)] from by
      simp [altCat, List.append_assoc]]
    exact occ_false_left (buildHeadingNumberCSS true) tm0 (altCat [(title, tmF0), (cfg.FONT_SIZE, tmF1), (cfg.LINE_HEIGHT, tmF2), (cfg.PADDING_X, tmF3), (cfg.PADDING_Y, tmF4), (cfg.CODE_FONT_SCALE, tmF5), (cfg.PAGE_BG, tmF6), (cfg.CODE_BG, tmF7), (cfg.MAX_WIDTH, tmF8), ([], tmF9), (body, tmF10)])
      (segOKL_of_checks _ _ (by decide) (by decide))
      (occursIn_altCat_false (buildHeadingNumberCSS true) (by decide) [(title, tmF0), (cfg.FONT_SIZE, tmF1), (cfg.LINE_HEIGHT, tmF2), (cfg.PADDING_X, tmF3), (cfg.PADDING_Y, tmF4), (cfg.CODE_FONT_SCALE, tmF5), (cfg.PAGE_BG, tmF6), (cfg.CODE_BG, tmF7), (cfg.MAX_WIDTH, tmF8), ([], tmF9), (body, tmF10)]
        (fun pr hpr => by
        simp only [List.mem_cons, List.not_mem_nil, or_false] at hpr
        rcases hpr with rfl | rfl | rfl | rfl | rfl | rfl | rfl | rfl | rfl | rfl | rfl
        · exact ⟨ht.2, (segOKL_of_checks _ _ (by decide) (by decide) : segOKL (buildHeadingNumberCSS true) tmF0), (segOKR_of_checks _ _ (by decide) : segOKR (buildHeadingNumberCSS true) tmF0)⟩
        · exact ⟨hf1.2, (segOKL_of_checks _ _ (by decide) (by decide) : segOKL (buildHeadingNumberCSS true) tmF1), (segOKR_of_checks _ _ (by decide) : segOKR (buildHeadingNumberCSS true) tmF1)⟩
        · exact ⟨hf2.2, (segOKL_of_checks _ _ (by decide) (by decide) : segOKL (buildHeadingNumberCSS true) tmF2), (segOKR_of_checks _ _ (by decide) : segOKR (buildHeadingNumberCSS true) tmF2)⟩
        · exact ⟨hf3.2, (segOKL_of_checks _ _ (by decide) (by decide) : segOKL (buildHeadingNumberCSS true) tmF3), (segOKR_of_checks _ _ (by decide) : segOKR (buildHeadingNumberCSS true) tmF3)⟩
        · exact ⟨hf4.2, (segOKL_of_checks _ _ (by decide) (by decide) : segOKL (buildHeadingNumberCSS true) tmF4), (segOKR_of_checks _ _ (by decide) : segOKR (buildHeadingNumberCSS true) tmF4)⟩
        · exact ⟨hf5.2, (segOKL_of_checks _ _ (by decide) (by decide) : segOKL (buildHeadingNumberCSS true) tmF5), (segOKR_of_checks _ _ (by decide) : segOKR (buildHeadingNumberCSS true) tmF5)⟩
        · exact ⟨hf6.2, (segOKL_of_checks _ _ (by decide) (by decide) : segOKL (buildHeadingNumberCSS true) tmF6), (segOKR_of_checks _ _ (by decide) : segOKR (buildHeadingNumberCSS true) tmF6)⟩
        · exact ⟨hf7.2, (segOKL_of_checks _ _ (by decide) (by decide) : segOKL (buildHeadingNumberCSS true) tmF7), (segOKR_of_checks _ _ (by decide) : segOKR (buildHeadingNumberCSS true) tmF7)⟩
        · exact ⟨hf8.2, (segOKL_of_checks _ _ (by decide) (by decide) : segOKL (buildHeadingNumberCSS true) tmF8), (segOKR_of_checks _ _ (by decide) : segOKR (buildHeadingNumberCSS true) tmF8)⟩
        · exact ⟨(by decide : occursIn (buildHeadingNumberCSS true) [] = false), (segOKL_of_checks _ _ (by decide) (by decide) : segOKL (buildHeadingNumberCSS true) tmF9), (segOKR_of_checks _ _ (by decide) : segOKR (buildHeadingNumberCSS true) tmF9)⟩
        · exact ⟨hb.2, (segOKL_of_checks _ _ (by decide) (by decide) : segOKL (buildHeadingNumberCSS true) tmF10), (segOKR_of_checks _ _ (by decide) : segOKR (buildHeadingNumberCSS true) tmF10)⟩))

/-- Witness for C8: `auto_number: true` in front matter with a global default
of false puts the rule set into the document assembled over the modelled
template with realistic configuration values. -/
theorem c8_heading_numbering_css_witness :
    occursIn (buildHeadingNumberCSS true)
      (buildHtml tmplModel
        ⟨cs "14px", cs "1.7", cs "48px", cs "28px", cs "0.9", cs "#ffffff", cs "#f6f8fa",
          cs "720px", false⟩
        (cs "report") (cs "<h1>Title</h1>\n<p>hello</p>")
        (autoNumberOf (.obj [(cs "auto_number", .b true)]))) = true := by
  rw [c8_heading_numbering_css
    ⟨cs "14px", cs "1.7", cs "48px", cs "28px", cs "0.9", cs "#ffffff", cs "#f6f8fa",
      cs "720px", false⟩
    (cs "report") (cs "<h1>Title</h1>\n<p>hello</p>")
    (.obj [(cs "auto_number", .b true)])
    (by
      intro v hv
      simp only [List.mem_cons, List.not_mem_nil, or_false] at hv
      rcases hv with rfl | rfl | rfl | rfl | rfl | rfl | rfl | rfl | rfl | rfl <;>
        exact ⟨by decide, by decide⟩)]
  rfl


/-- C9 (amended): the metadata block is empty exactly when none of student_id
(the identifier), author and affiliation is (truthily) present; otherwise it
lists precisely the present fields in that fixed order. A nonempty block is
inserted after the first top-level-heading match as the JS dollar-expansion of
the replacement string `"$1" + metaHtml` against that match — so the block is
inserted verbatim immediately after the heading exactly when it contains no
dollar sequence (last conjunct gives the general insertion; the dollar-free
conjunct specializes it). With no heading the document is returned unchanged
(the block is dropped). -/
theorem c9_metadata_block :
    (∀ fm : JsVal,
      fieldTruthy (getField fm (cs "student_id")) = false →
      fieldTruthy (getField fm (cs "author")) = false →
      fieldTruthy (getField fm (cs "affiliation")) = false →
      generateMetaInfo fm = []) ∧
    (∀ fm : JsVal,
      (fieldTruthy (getField fm (cs "student_id")) ||
       fieldTruthy (getField fm (cs "author")) ||
       fieldTruthy (getField fm (cs "affiliation"))) = true →
      generateMetaInfo fm =
        cs "\n  <div class=\"document-meta\">\n    " ++
        metaFieldHtml (cs "meta-student-id") (cs "学籍番号: ") (getField fm (cs "student_id")) ++
        cs "\n    " ++
        metaFieldHtml (cs "meta-author") [] (getField fm (cs "author")) ++
        cs "\n    " ++
        metaFieldHtml (cs "meta-affiliation") [] (getField fm (cs "affiliation")) ++
        cs "\n  </div>") ∧
    (∀ html metaHtml pre tag post : List Char, metaHtml ≠ [] → '$' ∉ metaHtml →
      findH1 html = some (pre, tag, post) →
      insertAfterFirstH1 html metaHtml = pre ++ tag ++ metaHtml ++ post) ∧
    (∀ html metaHtml : List Char, findH1 html = none →
      insertAfterFirstH1 html metaHtml = html) ∧
    (∀ html metaHtml pre tag post : List Char, metaHtml ≠ [] →
      findH1 html = some (pre, tag, post) →
      insertAfterFirstH1 html metaHtml =
        pre ++ expandRepl tag tag pre post ('$' :: '1' :: metaHtml) ++ post) := by
  refine ⟨?_, ?_, ?_, ?_, ?_⟩
  · intro fm h1 h2 h3
    simp [generateMetaInfo, h1, h2, h3]
  · intro fm h
    have hcond : (!fieldTruthy (getField fm (cs "author")) &&
        !fieldTruthy (getField fm (cs "affiliation")) &&
        !fieldTruthy (getField fm (cs "student_id"))) = false := by
      revert h
      cases fieldTruthy (getField fm (cs "student_id")) <;>
        cases fieldTruthy (getField fm (cs "author")) <;>
        cases fieldTruthy (getField fm (cs "affiliation")) <;> simp
    simp only [generateMetaInfo, hcond, Bool.false_eq_true, if_false]
  · intro html metaHtml pre tag post hne hd hfind
    have hemp : metaHtml.isEmpty = false := by
      cases metaHtml with
      | nil => exact absurd rfl hne
      | cons c t => rfl
    rw [insertAfterFirstH1, hemp]
    simp only [Bool.false_eq_true, if_false, hfind]
    rw [expandRepl_dollar1 tag tag pre post metaHtml hd]
    simp [List.append_assoc]
  · intro html metaHtml hfind
    rw [insertAfterFirstH1]
    split
    · rfl
    · rw [hfind]
  · intro html metaHtml pre tag post hne hfind
    have hemp : metaHtml.isEmpty = false := by
      cases metaHtml with
      | nil => exact absurd rfl hne
      | cons c t => rfl
    rw [insertAfterFirstH1, hemp]
    simp only [Bool.false_eq_true, if_false, hfind]

/-- C9 counterexample: an author value containing a dollar sequence. The front
matter has `author: Price: $100`; the generated block contains that text, but
the inserted text is the dollar-expansion of `"$1" + block` against the heading
match, so `$1` inside `$100` is replaced by the matched `<h1>` element and the
document does not contain the block immediately after the heading — the
heading is duplicated inside it instead. -/
theorem c9_dollar_counterexample :
    insertAfterFirstH1 (cs "<h1>T</h1><p>x</p>")
      (generateMetaInfo (.obj [(cs "author", .s (cs "Price: $100"))])) ≠
      [] ++ cs "<h1>T</h1>" ++
        generateMetaInfo (.obj [(cs "author", .s (cs "Price: $100"))]) ++ cs "<p>x</p>" ∧
    findH1 (cs "<h1>T</h1><p>x</p>") = some ([], cs "<h1>T</h1>", cs "<p>x</p>") ∧
    occursIn (cs "Price: $100")
      (generateMetaInfo (.obj [(cs "author", .s (cs "Price: $100"))])) = true ∧
    occursIn (cs "<div class=\"meta-author\">Price: <h1>T</h1>00</div>")
      (insertAfterFirstH1 (cs "<h1>T</h1><p>x</p>")
        (generateMetaInfo (.obj [(cs "author", .s (cs "Price: $100"))]))) = true := by
  exact ⟨by decide, by decide, by decide, by decide⟩

/-- Witness for C9: the spec scenario `author: Jane`, `affiliation: Lab`
followed by a title heading. -/
theorem c9_metadata_block_witness :
    generateMetaInfo (.obj [(cs "author", .s (cs "Jane")), (cs "affiliation", .s (cs "Lab"))]) =
      cs "\n  <div class=\"document-meta\">\n    \n    <div class=\"meta-author\">Jane</div>\n    <div class=\"meta-affiliation\">Lab</div>\n  </div>" ∧
    insertAfterFirstH1 (cs "<h1 id=\"t\">T</h1>\n<p>x</p>")
      (generateMetaInfo
        (.obj [(cs "author", .s (cs "Jane")), (cs "affiliation", .s (cs "Lab"))])) =
      [] ++ cs "<h1 id=\"t\">T</h1>" ++
      (generateMetaInfo
        (.obj [(cs "author", .s (cs "Jane")), (cs "affiliation", .s (cs "Lab"))])) ++
      cs "\n<p>x</p>" := by
  constructor
  · rw [c9_metadata_block.2.1 _ (by rfl)]
    rfl
  · exact c9_metadata_block.2.2.1 (cs "<h1 id=\"t\">T</h1>\n<p>x</p>") _
      ([]) (cs "<h1 id=\"t\">T</h1>") (cs "\n<p>x</p>") (by decide) (by decide) (by rfl)
